import Mathlib

/-!
Shallow embedding of the DOTbot task orchestrator
(`src/app/services/task_orchestrator.py`) and proofs about it.

Conventions used throughout:
* Python `datetime.utcnow()` timestamps are abstracted to natural numbers
  supplied by the caller (or by a monotone call-counter clock inside the
  execution routine); only ordering and presence matter to the claims.
* Python floats that hold second counts are modelled as naturals (all the
  constants involved are whole seconds).  The derived `progress` percentage
  is modelled exactly as a rational.
* `defaultdict(int)` / `defaultdict(float)` maps are modelled as total
  functions with the default value, plus a `known` predicate that tracks
  which keys have actually been inserted (Python's `in` test).
-/

namespace DOTbot

/-- `TaskStatus` enum (task_orchestrator.py lines 31-38).  The Python
member `PARTIAL` ("completed with some failures") is rendered
`partialStatus` because its literal name is a Lean keyword. -/
inductive TaskStatus
  | pending
  | running
  | completed
  | failed
  | partialStatus
  | cancelled
  deriving DecidableEq, Repr

/-- One scraped item as appended to `TaskResult.results`.  The dictionaries
built at lines 276-285 (main page) and 521-533 (article) share the fields
below; fields that only the article dict carries are `Option`-valued and
`none` for the main page. -/
structure ScrapedItem where
  url : String
  /-- `result.get("text", "")[:2000]` -/
  text : String
  full_text : String
  source : String
  depth : Nat
  word_count : Nat
  char_count : Nat
  /-- article only: `attempt + 1` -/
  retry_attempt : Option Nat := none
  /-- article only: the per-attempt timeout in force on the successful attempt -/
  scrape_duration : Option Nat := none
  /-- article only: `attempt > 0` -/
  error_recovery : Option Bool := none
  /-- `datetime.utcnow().isoformat()`, abstracted to the clock value -/
  timestamp : Nat := 0
  deriving DecidableEq, Repr

/-- Python `str.split()` word count: split on whitespace, drop empties. -/
def pyWordCount (s : String) : Nat :=
  ((s.split Char.isWhitespace).filter (fun w => w ≠ "")).length

/-- `TaskResult` (task_orchestrator.py lines 48-72).  `metadata` is an open
dict in the source; the only key the embedded code paths write after
construction is `"ai_reports"` (lines 397-398), modelled as the
`ai_reports` field. -/
structure TaskResult where
  task_id : String
  status : TaskStatus
  progress : ℚ
  total_items : Nat
  completed_items : Nat
  failed_items : Nat
  results : List ScrapedItem
  errors : List String
  ai_reports : Option (List String)
  created_at : Nat
  updated_at : Nat
  completed_at : Option Nat
  deriving DecidableEq, Repr

/-- Fresh `TaskResult` as built by `submit_multi_depth_scrape`
(lines 212-222): status `pending`, all counters zero. -/
def TaskResult.init (task_id : String) (now : Nat) : TaskResult :=
  { task_id := task_id
    status := TaskStatus.pending
    progress := 0
    total_items := 0
    completed_items := 0
    failed_items := 0
    results := []
    errors := []
    ai_reports := none
    created_at := now
    updated_at := now
    completed_at := none }

/-- `TaskResult.update_progress` (lines 74-88). -/
def TaskResult.update_progress (tr : TaskResult) (completed : Nat) (failed : Nat)
    (now : Nat) : TaskResult :=
  let tr1 := { tr with
    completed_items := completed
    failed_items := failed
    progress := ((completed : ℚ) + (failed : ℚ)) / (max tr.total_items 1 : Nat) * 100
    updated_at := now }
  if tr1.completed_items + tr1.failed_items ≥ tr1.total_items then
    { tr1 with
      completed_at := some now
      status :=
        if tr1.failed_items = 0 then TaskStatus.completed
        else if tr1.completed_items > 0 then TaskStatus.partialStatus
        else TaskStatus.failed }
  else tr1

/-- `TaskResult.add_result` (lines 90-92). -/
def TaskResult.add_result (tr : TaskResult) (item : ScrapedItem) : TaskResult :=
  { tr with results := tr.results ++ [item] }

/-- `TaskResult.add_error` (lines 94-96). -/
def TaskResult.add_error (tr : TaskResult) (msg : String) : TaskResult :=
  { tr with errors := tr.errors ++ [msg] }

/-! ### CircuitBreaker (lines 119-168)

`urlparse(url).netloc` is an external library call; it is abstracted as a
parameter `netloc : String → String` threaded through the operations.
`self.failures` is a `defaultdict(int)`: modelled as the total function
`failures` (default 0) together with `known`, which records the keys the
dict actually holds (a key is created by `record_failure` and kept by the
reset in `is_blocked`); `record_success`'s `domain in self.failures` test
reads `known`.  `time.time()` values are the `now : Nat` arguments; the
float comparison `time.time() - last_failure > timeout_seconds` agrees with
the truncated-subtraction form used here for every `now` (when
`now < last_failure` both sides are false). -/

structure CircuitBreaker where
  failure_threshold : Nat
  timeout_seconds : Nat
  failures : String → Nat
  last_failure_time : String → Nat
  known : String → Bool
  blocked_domains : String → Bool

/-- `CircuitBreaker.__init__` (lines 122-127) with the default arguments. -/
def CircuitBreaker.init : CircuitBreaker :=
  { failure_threshold := 5
    timeout_seconds := 300
    failures := fun _ => 0
    last_failure_time := fun _ => 0
    known := fun _ => false
    blocked_domains := fun _ => false }

/-- `CircuitBreaker.record_failure` (lines 129-138). -/
def CircuitBreaker.record_failure (netloc : String → String) (cb : CircuitBreaker)
    (url : String) (now : Nat) : CircuitBreaker :=
  let domain := netloc url
  let f := cb.failures domain + 1
  { cb with
    failures := Function.update cb.failures domain f
    last_failure_time := Function.update cb.last_failure_time domain now
    known := Function.update cb.known domain true
    blocked_domains :=
      if f ≥ cb.failure_threshold then Function.update cb.blocked_domains domain true
      else cb.blocked_domains }

/-- `CircuitBreaker.is_blocked` (lines 140-157).  Returns the boolean answer
together with the (possibly reset) breaker, since the cooldown check
mutates the state. -/
def CircuitBreaker.is_blocked (netloc : String → String) (cb : CircuitBreaker)
    (url : String) (now : Nat) : Bool × CircuitBreaker :=
  let domain := netloc url
  if cb.blocked_domains domain = false then (false, cb)
  else if now - cb.last_failure_time domain > cb.timeout_seconds then
    (false,
      { cb with
        blocked_domains := Function.update cb.blocked_domains domain false
        failures := Function.update cb.failures domain 0 })
  else (true, cb)

/-- `CircuitBreaker.record_success` (lines 159-168). -/
def CircuitBreaker.record_success (netloc : String → String) (cb : CircuitBreaker)
    (url : String) : CircuitBreaker :=
  let domain := netloc url
  if cb.known domain then
    let f := cb.failures domain - 1
    { cb with
      failures := Function.update cb.failures domain f
      blocked_domains :=
        if f = 0 ∧ cb.blocked_domains domain then
          Function.update cb.blocked_domains domain false
        else cb.blocked_domains }
  else cb

/-- Fold of `record_failure` over a list of `(url, time)` pairs. -/
def CircuitBreaker.record_failures (netloc : String → String) (cb : CircuitBreaker)
    (l : List (String × Nat)) : CircuitBreaker :=
  l.foldl (fun c p => c.record_failure netloc p.1 p.2) cb

/-! ### ArticleWorker: `_scrape_article_with_timeout` (lines 477-591)

The browser call `await asyncio.wait_for(self.browser_scraper._basic_browser_scrape(url),
timeout=timeout_seconds)` is an external collaborator; each attempt's
observable outcome is supplied by an oracle `attempts : Nat → AttemptOutcome`
indexed by the attempt number.  The worker's event trace (fetch attempts
with the timeout in force, backoff sleeps, circuit-breaker calls) is
returned so that the retry/backoff schedule can be stated. -/

/-- Outcome of one `wait_for(_basic_browser_scrape(url))` attempt as seen by
the `try`/`except` ladder at lines 507-585. -/
inductive AttemptOutcome
  /-- returned with `result["success"]` true and the given text -/
  | fetched (text : String)
  /-- returned with `result["success"]` false: raises `RuntimeError`, which
  the generic `except Exception` branch (lines 573-585) handles -/
  | fetchFailed (err : String)
  /-- `asyncio.TimeoutError` (lines 541-552) -/
  | timeout
  /-- `asyncio.CancelledError` (lines 554-558) -/
  | cancelledSignal
  /-- `ConnectionError` (lines 560-571) -/
  | connectionError (err : String)
  /-- any other exception: generic `except Exception` branch -/
  | otherError (err : String)
  deriving DecidableEq, Repr

/-- Attempt outcomes that neither succeed nor cancel: the worker retries on
them (or exhausts and records a circuit-breaker failure). -/
def AttemptOutcome.failing : AttemptOutcome → Bool
  | .fetched _ => false
  | .cancelledSignal => false
  | _ => true

/-- Observable steps of one worker invocation. -/
inductive WorkerEvent
  /-- the fetch call of attempt `i` issued under per-attempt timeout `t` -/
  | attemptFetch (i : Nat) (t : Nat)
  /-- `await asyncio.sleep(secs)` -/
  | sleep (secs : Nat)
  | breakerSuccess
  | breakerFailure
  deriving DecidableEq, Repr

structure WorkerResult where
  /-- the article dict, or `None` -/
  data : Option ScrapedItem
  breaker : CircuitBreaker
  events : List WorkerEvent

/-- Article dict built on a successful attempt (lines 521-533). -/
def mkArticleData (url text : String) (depth attempt timeout_seconds now : Nat) :
    ScrapedItem :=
  { url := url
    text := text.take 2000
    full_text := text
    source := "article-depth-" ++ toString depth
    depth := depth
    word_count := pyWordCount text
    char_count := text.length
    retry_attempt := some (attempt + 1)
    scrape_duration := some timeout_seconds
    error_recovery := some (decide (attempt > 0))
    timestamp := now }

/-- The `for attempt in range(retry_count + 1)` loop (lines 506-591).
`fuel` is the number of loop iterations still available
(`retry_count + 1 - i` at every call site), `i` the current attempt index,
`t` the current `timeout_seconds` (which the timeout branch shrinks), and
`evs` the reversed accumulator of events so far.  Running out of fuel is
the loop falling through to `return None` (line 591). -/
def workerGo (netloc : String → String) (url : String) (depth retry_count now : Nat)
    (attempts : Nat → AttemptOutcome) :
    Nat → Nat → Nat → CircuitBreaker → List WorkerEvent → WorkerResult
  | 0, _, _, cb, evs => ⟨none, cb, evs.reverse⟩
  | fuel + 1, i, t, cb, evs =>
    let evs1 := WorkerEvent.attemptFetch i t :: evs
    match attempts i with
    | .fetched text =>
        ⟨some (mkArticleData url text depth i t now),
         cb.record_success netloc url,
         (WorkerEvent.breakerSuccess :: evs1).reverse⟩
    | .timeout =>
        if i < retry_count then
          workerGo netloc url depth retry_count now attempts
            fuel (i + 1) (max 60 (t / 2)) cb (WorkerEvent.sleep 1 :: evs1)
        else
          ⟨none, cb.record_failure netloc url now,
           (WorkerEvent.breakerFailure :: evs1).reverse⟩
    | .cancelledSignal => ⟨none, cb, evs1.reverse⟩
    | .connectionError _ =>
        if i < retry_count then
          workerGo netloc url depth retry_count now attempts
            fuel (i + 1) t cb (WorkerEvent.sleep (min (5 + 2 * i) 15) :: evs1)
        else
          ⟨none, cb.record_failure netloc url now,
           (WorkerEvent.breakerFailure :: evs1).reverse⟩
    | .fetchFailed _ =>
        if i < retry_count then
          workerGo netloc url depth retry_count now attempts
            fuel (i + 1) t cb (WorkerEvent.sleep (min (2 ^ i) 5) :: evs1)
        else
          ⟨none, cb.record_failure netloc url now,
           (WorkerEvent.breakerFailure :: evs1).reverse⟩
    | .otherError _ =>
        if i < retry_count then
          workerGo netloc url depth retry_count now attempts
            fuel (i + 1) t cb (WorkerEvent.sleep (min (2 ^ i) 5) :: evs1)
        else
          ⟨none, cb.record_failure netloc url now,
           (WorkerEvent.breakerFailure :: evs1).reverse⟩

/-- `_scrape_article_with_timeout` (lines 477-591): circuit-breaker check,
then the retry loop. -/
def scrape_article_with_timeout (netloc : String → String) (cb : CircuitBreaker)
    (url : String) (depth retry_count timeout_seconds now : Nat)
    (attempts : Nat → AttemptOutcome) : WorkerResult :=
  let checked := cb.is_blocked netloc url now
  if checked.1 then ⟨none, checked.2, []⟩
  else workerGo netloc url depth retry_count now attempts
    (retry_count + 1) 0 timeout_seconds checked.2 []

/-- The per-attempt timeout the claim prescribes: `timeoutSeq attempts t0 k`
is the timeout in force at attempt `k` when every earlier attempt retried —
halved with a floor of 60 after a timeout, unchanged otherwise. -/
def timeoutSeq (attempts : Nat → AttemptOutcome) (t0 : Nat) : Nat → Nat
  | 0 => t0
  | k + 1 =>
    match attempts k with
    | .timeout => max 60 (timeoutSeq attempts t0 k / 2)
    | _ => timeoutSeq attempts t0 k

/-! ### The execution routine `_execute_multi_depth_scrape` (lines 237-422)

The routine is async and time-driven; its interactions with the outside
world are supplied through `ExecEnv`:
* `disc` — the outcome of the phase-1 discovery call (lines 258-267);
* `elapsedBefore k` — the whole-second value of
  `datetime.utcnow() - start_time` computed at the top of batch iteration
  `k` (line 304; the same value is reused for every link of the batch);
* `articleResult n` — the entry of the `asyncio.gather` result list for the
  article task of the `n`-th discovered link (lines 334-337);
* `batchTimedOut k` / `notDone k j` — whether the batch-level
  `asyncio.wait_for` raised `TimeoutError` on batch `k`, and which of the
  batch's tasks were still not done then (lines 357-363);
* `finalElapsed` — elapsed seconds at the finalize step (line 371);
* `cancelObservedAt` — batch index at whose gather `await` a
  `asyncio.CancelledError` is delivered (a cancelled coroutine observes the
  error at its next suspension point; `except Exception` does not catch it,
  so the routine unwinds at once);
* `classification` — the phase-3 analysis outcome if phase 3 runs
  (lines 390-405; the classifier itself is an external collaborator).

`datetime.utcnow()` calls are numbered by a running counter, so timestamps
are the (monotone) call indices.  Every mutation of the task record pushes
a snapshot, giving the sequence of states a polling reader can observe. -/

/-- The request fields the routine reads (`ScrapeRequest` in
`app/schemas/scrape_schemas.py`; only `url`, `question`, `max_depth`,
`categories` are consulted here). -/
structure ScrapeRequest where
  url : String
  question : Option String
  max_depth : Nat
  categories : Option (List String)

/-- Python truthiness of `request.question` (line 386): `None` and the
empty string are falsy. -/
def ScrapeRequest.questionTruthy (req : ScrapeRequest) : Bool :=
  match req.question with
  | none => false
  | some q => q ≠ ""

/-- Outcome of the phase-1 discovery call (lines 258-267). -/
inductive DiscoveryOutcome
  /-- `asyncio.TimeoutError` from the 5-minute `wait_for` (line 263) -/
  | discTimeout
  /-- returned with `success` false; `err` is `.get('error', 'Unknown error')` -/
  | discFail (err : String)
  | discOk (text : String) (links : List String)
  deriving DecidableEq

/-- One entry of the `asyncio.gather(..., return_exceptions=True)` result
list, as discriminated by lines 340-349. -/
inductive BatchItemResult
  /-- `isinstance(result, Exception)`; `msg` is `str(result)` -/
  | exn (msg : String)
  /-- a truthy article dict -/
  | ok (d : ScrapedItem)
  /-- the worker returned `None` -/
  | noneResult
  deriving DecidableEq

/-- How a worker's `Option` return value appears in the gather list. -/
def BatchItemResult.ofOption : Option ScrapedItem → BatchItemResult
  | some d => BatchItemResult.ok d
  | none => BatchItemResult.noneResult

structure ExecEnv where
  /-- orchestrator config `max_concurrent_articles` (default 10) -/
  max_concurrent_articles : Nat
  disc : DiscoveryOutcome
  elapsedBefore : Nat → Nat
  articleResult : Nat → BatchItemResult
  batchTimedOut : Nat → Bool
  notDone : Nat → Nat → Bool
  finalElapsed : Nat
  cancelObservedAt : Option Nat
  classification : Except String (List String)

/-- Threaded execution state: the live record, its snapshot history
(newest first), the `utcnow()` call counter and the number of article
tasks created so far. -/
structure ExecState where
  tr : TaskResult
  trace : List TaskResult
  clock : Nat
  dispatched : Nat

/-- Record a mutation of the task record and snapshot it. -/
def ExecState.snap (s : ExecState) (tr' : TaskResult) : ExecState :=
  { s with tr := tr', trace := tr' :: s.trace }

/-- One `datetime.utcnow()` call. -/
def ExecState.tick (s : ExecState) : Nat × ExecState :=
  (s.clock, { s with clock := s.clock + 1 })

/-- Main page dict (lines 276-285). -/
def mkMainPageData (url text : String) (now : Nat) : ScrapedItem :=
  { url := url
    text := text.take 2000
    full_text := text
    source := "main_page"
    depth := 0
    word_count := pyWordCount text
    char_count := text.length
    timestamp := now }

/-- The `for result in results:` loop over one batch's gather list
(lines 340-355): classify each entry, append result or error, bump the
matching counter, then `update_progress` after every entry.  `cnt` is the
number of entries left, `j` the position within the batch, `gi` the batch's
first global link index, `cc`/`fc` the loop-local `completed_count` /
`failed_count`. -/
def processBatchResults (env : ExecEnv) (gi : Nat) :
    Nat → Nat → Nat → Nat → ExecState → Nat × Nat × ExecState
  | 0, _, cc, fc, s => (cc, fc, s)
  | cnt + 1, j, cc, fc, s =>
    let step : Nat × Nat × ExecState :=
      match env.articleResult (gi + j) with
      | .exn msg =>
          (cc, fc + 1, s.snap (s.tr.add_error ("Article scraping failed: " ++ msg)))
      | .ok d => (cc + 1, fc, s.snap (s.tr.add_result d))
      | .noneResult => (cc, fc + 1, s)
    let cc' := step.1
    let fc' := step.2.1
    let s' := step.2.2
    let t := s'.tick
    let s'' := t.2.snap (t.2.tr.update_progress cc' fc' t.1)
    processBatchResults env gi cnt (j + 1) cc' fc' s''

/-- The phase-2 batch loop `for i in range(0, len(found_links), batch_size)`
(lines 302-367).  `fuel` is the initial number of links (each iteration
consumes at least one link when `batchSize ≥ 1`, and the caller rules out
`batchSize = 0`, on which Python's `range` raises before the loop starts);
`links` the links not yet reached, `k` the batch index, `gi` the global
index of the batch's first link.  Returns
`(cancellation observed, completed_count, failed_count, state)`. -/
def phase2Go (env : ExecEnv) (budget batchSize : Nat) :
    Nat → List String → Nat → Nat → Nat → Nat → ExecState →
    Bool × Nat × Nat × ExecState
  | 0, _, _, _, cc, fc, s => (false, cc, fc, s)
  | _ + 1, [], _, _, cc, fc, s => (false, cc, fc, s)
  | fuel + 1, link :: rest0, k, gi, cc, fc, s =>
    let links := link :: rest0
    let elapsed := env.elapsedBefore k
    -- line 305: overall deadline reached → stop issuing batches
    if elapsed ≥ budget then (false, cc, fc, s)
    else
      let batch := links.take batchSize
      let rest := links.drop batchSize
      -- lines 313-317: `remaining_time` is derived from the same `elapsed`
      -- for every link of the batch, so the `< 60` guard either skips the
      -- whole batch or none of it
      if budget - elapsed < 60 then
        phase2Go env budget batchSize fuel rest (k + 1) (gi + batch.length) cc fc s
      else
        let nTasks := batch.length
        let s1 := { s with dispatched := s.dispatched + nTasks }
        -- the batch-level await (line 334): a delivered CancelledError
        -- unwinds the whole routine here
        if env.cancelObservedAt = some k then (true, cc, fc, s1)
        else if env.batchTimedOut k then
          -- lines 357-367: count still-running tasks as failed, update, break
          let nd := ((List.range nTasks).filter (fun j => env.notDone k j)).length
          let fc' := fc + nd
          let t := s1.tick
          let s2 := t.2.snap (t.2.tr.update_progress cc fc' t.1)
          (false, cc, fc', s2)
        else
          let r := processBatchResults env gi nTasks 0 cc fc s1
          phase2Go env budget batchSize fuel rest (k + 1) (gi + nTasks) r.1 r.2.1 r.2.2

/-- Result of one run of the execution routine. -/
structure ExecResult where
  final : TaskResult
  /-- chronological snapshot sequence -/
  trace : List TaskResult
  /-- number of article tasks ever created -/
  dispatched : Nat
  /-- the routine was unwound by `CancelledError` (finalize and phase 3
  never ran) -/
  aborted : Bool
  /-- the routine took the `except Exception` branch (phase 3, which sits
  inside the `try`, never ran) -/
  raised : Bool

/-- The `except Exception` branch (lines 413-417): status `failed`, one
error appended, `completed_at` stamped. -/
def exceptPath (s : ExecState) (msg : String) : ExecResult :=
  let s1 := s.snap { s.tr with status := TaskStatus.failed }
  let s2 := s1.snap (s1.tr.add_error ("Task execution failed: " ++ msg))
  let t := s2.tick
  let s3 := t.2.snap { t.2.tr with completed_at := some t.1 }
  ⟨s3.tr, s3.trace.reverse, s3.dispatched, false, true⟩

/-- Phase 3 (lines 384-407): runs only when `request.question` is truthy
and at least one result exists; a successful analysis stores the reports in
metadata, a failure only appends a task-level error. -/
def phase3 (questionTruthy : Bool) (classification : Except String (List String))
    (tr : TaskResult) : TaskResult :=
  if questionTruthy ∧ tr.results.length > 0 then
    match classification with
    | .ok reports => { tr with ai_reports := some reports }
    | .error msg => tr.add_error ("AI behavior analysis failed: " ++ msg)
  else tr

/-- `_execute_multi_depth_scrape` up to and including the finalize step
(lines 237-382), i.e. everything except phase 3. -/
def executeCore (task_id : String) (req : ScrapeRequest) (timeout_minutes : Nat)
    (env : ExecEnv) : ExecResult :=
  let tr0 := TaskResult.init task_id 0
  let s0 : ExecState := { tr := tr0, trace := [tr0], clock := 1, dispatched := 0 }
  -- line 252: status = RUNNING
  let s1 := s0.snap { s0.tr with status := TaskStatus.running }
  match env.disc with
  | .discTimeout => exceptPath s1 "Main page scraping timed out after 5 minutes"
  | .discFail err => exceptPath s1 ("Failed to scrape main page: " ++ err)
  | .discOk text links =>
      -- line 273: total_items = len(found_links) + 1
      let s2 := s1.snap { s1.tr with total_items := links.length + 1 }
      -- lines 276-288: record the main page, update progress
      let tA := s2.tick
      let s3 := tA.2.snap (tA.2.tr.add_result (mkMainPageData req.url text tA.1))
      let tB := s3.tick
      let s4 := tB.2.snap (tB.2.tr.update_progress 1 0 tB.1)
      let budget := timeout_minutes * 60
      let batchSize := min env.max_concurrent_articles 10
      -- line 291: phase 2 only when links were found and max_depth > 1
      if links ≠ [] ∧ req.max_depth > 1 then
        if batchSize = 0 then
          -- `range(0, n, 0)` raises ValueError, landing in the except branch
          exceptPath s4 "range() arg 3 must not be zero"
        else
          let p2 := phase2Go env budget batchSize links.length links 0 0 1 0 s4
          if p2.1 then ⟨p2.2.2.2.tr, p2.2.2.2.trace.reverse, p2.2.2.2.dispatched, true, false⟩
          else finalize timeout_minutes budget env p2.2.2.2
      else finalize timeout_minutes budget env s4
where
  /-- lines 370-382: stamp `completed_at`, then derive the final status from
  (no results / deadline exceeded / any error strings recorded). -/
  finalize (timeout_minutes budget : Nat) (env : ExecEnv) (s : ExecState) : ExecResult :=
    let t := s.tick
    let s5 := t.2.snap { t.2.tr with completed_at := some t.1 }
    let tr := s5.tr
    let tr' :=
      if tr.results.length = 0 then { tr with status := TaskStatus.failed }
      else if env.finalElapsed ≥ budget then
        ({ tr with status := TaskStatus.partialStatus }).add_error
          ("Task timed out after " ++ toString timeout_minutes ++
            " minutes, returning partial results")
      else if tr.errors.length > 0 then { tr with status := TaskStatus.partialStatus }
      else { tr with status := TaskStatus.completed }
    let s6 := s5.snap tr'
    ⟨s6.tr, s6.trace.reverse, s6.dispatched, false, false⟩

/-- The whole execution routine: core phases, then phase 3 (which a
cancellation unwind or the `except` branch skips, both phases sitting in
the same `try`). -/
def execute_multi_depth_scrape (task_id : String) (req : ScrapeRequest)
    (timeout_minutes : Nat) (env : ExecEnv) : ExecResult :=
  let core := executeCore task_id req timeout_minutes env
  if core.aborted ∨ core.raised then core
  else
    let fin := phase3 req.questionTruthy env.classification core.final
    { core with final := fin, trace := core.trace ++ [fin] }

/-! ### Orchestrator registry operations -/

/-- The cross-task state `cancel_task` touches: the queryable registry
`self.tasks` and the `self.active_tasks` map (modelled by which ids are
active). -/
structure Orchestrator where
  tasks : String → Option TaskResult
  active : String → Bool

/-- `TaskOrchestrator.cancel_task` (lines 649-674).  Returns
`(return value, cancellation signal sent, new state)`; the signal is sent
(`active_task.cancel()`) exactly when the task still had a live execution
routine. -/
def cancel_task (o : Orchestrator) (tid : String) (now : Nat) :
    Bool × Bool × Orchestrator :=
  match o.tasks tid with
  | none => (false, false, o)
  | some tr =>
      let signalled := o.active tid
      let tr' := { tr with status := TaskStatus.cancelled, completed_at := some now }
      (true, signalled,
        { tasks := Function.update o.tasks tid (some tr')
          active := Function.update o.active tid false })

/-- The terminal statuses of §4.4. -/
def TaskStatus.isTerminal : TaskStatus → Bool
  | .completed => true
  | .failed => true
  | .partialStatus => true
  | .cancelled => true
  | _ => false

/-! ### Concrete scenario: 3 discovered links, third article fetch
exhausts its connection retries (spec §8's second scenario) -/

/-- Every attempt of the third article raises `ConnectionError`. -/
def c1Attempts : Nat → AttemptOutcome :=
  fun _ => AttemptOutcome.connectionError "refused"

/-- The worker invocation for the third link: `retry_count = 3`,
per-attempt timeout 180 s, all attempts connection errors. -/
def c1Worker : WorkerResult :=
  scrape_article_with_timeout id CircuitBreaker.init "http://m/a3" 1 3 180 1000 c1Attempts

def c1Request : ScrapeRequest :=
  { url := "http://m/", question := none, max_depth := 2, categories := none }

/-- Discovery yields 3 links; one batch, no timeouts, no cancellation;
the first two article fetches succeed and the third is the exhausted
worker's `None`. -/
def c1Env : ExecEnv :=
  { max_concurrent_articles := 10
    disc := DiscoveryOutcome.discOk "main text" ["http://m/a1", "http://m/a2", "http://m/a3"]
    elapsedBefore := fun _ => 0
    articleResult := fun n =>
      if n = 0 then BatchItemResult.ok (mkArticleData "http://m/a1" "t1" 1 0 180 10)
      else if n = 1 then BatchItemResult.ok (mkArticleData "http://m/a2" "t2" 1 0 180 11)
      else BatchItemResult.ofOption c1Worker.data
    batchTimedOut := fun _ => false
    notDone := fun _ _ => false
    finalElapsed := 30
    cancelObservedAt := none
    classification := Except.ok [] }

def c1Run : ExecResult := execute_multi_depth_scrape "t1" c1Request 30 c1Env

/-! ### Concrete scenario: registry holding one already-completed task -/

/-- A task record that finished `Completed`. -/
def c2Record : TaskResult :=
  { TaskResult.init "done" 0 with
    status := TaskStatus.completed
    total_items := 1
    completed_items := 1
    progress := 100
    completed_at := some 9 }

/-- Registry tracking the completed task; its execution routine has
already exited, so it is no longer active. -/
def c2Orch : Orchestrator :=
  { tasks := fun tid => if tid = "done" then some c2Record else none
    active := fun _ => false }

/-! ## Theorems -/

/-- C3: `update_progress(completed, failed)` recomputes
`progress = (completed+failed)/max(total,1)*100`, sets `updatedAt`, and
whenever `completed+failed ≥ totalItems` it stamps `completedAt` and
derives the terminal status by the guard sequence
`failed==0 → Completed`, `completed>0 ∧ failed>0 → Partial`,
`completed==0 → Failed` (first matching guard wins, as in the spec's guard
list and in the code). -/
theorem update_progress_spec (tr : TaskResult) (completed failed now : Nat) :
    (tr.update_progress completed failed now).progress
        = ((completed : ℚ) + (failed : ℚ)) / ((max tr.total_items 1 : Nat) : ℚ) * 100
    ∧ (tr.update_progress completed failed now).updated_at = now
    ∧ (completed + failed ≥ tr.total_items →
        (tr.update_progress completed failed now).completed_at = some now
        ∧ (tr.update_progress completed failed now).status
            = (if failed = 0 then TaskStatus.completed
               else if completed > 0 then TaskStatus.partialStatus
               else TaskStatus.failed)) := by
  unfold TaskResult.update_progress
  by_cases h : completed + failed ≥ tr.total_items <;> simp [h]

/-- Witness for C3 at `total=2, completed=1, failed=1, now=5`. -/
theorem update_progress_spec_witness :
    1 + 1 ≥ ({ TaskResult.init "w" 0 with total_items := 2 } : TaskResult).total_items
    ∧ (({ TaskResult.init "w" 0 with total_items := 2 } :
          TaskResult).update_progress 1 1 5).completed_at = some 5
    ∧ (({ TaskResult.init "w" 0 with total_items := 2 } :
          TaskResult).update_progress 1 1 5).status = TaskStatus.partialStatus := by
  have h := (update_progress_spec { TaskResult.init "w" 0 with total_items := 2 } 1 1 5).2.2
    (by decide)
  exact ⟨by decide, h.1, by simpa using h.2⟩

/-- C10: calling `update_progress(0, 0)` on a record whose `totalItems` is
still 0 satisfies `completed+failed ≥ total` vacuously, so it stamps
`completedAt` and sets status `Completed` — the derivation is not guarded
by the totals being known. -/
theorem update_progress_zero_total (tr : TaskResult) (now : Nat)
    (h : tr.total_items = 0) :
    (tr.update_progress 0 0 now).status = TaskStatus.completed
    ∧ (tr.update_progress 0 0 now).completed_at = some now := by
  unfold TaskResult.update_progress
  simp [h]

/-- Witness for C10 on a freshly submitted record. -/
theorem update_progress_zero_total_witness :
    (TaskResult.init "w" 0).total_items = 0
    ∧ ((TaskResult.init "w" 0).update_progress 0 0 7).status = TaskStatus.completed
    ∧ ((TaskResult.init "w" 0).update_progress 0 0 7).completed_at = some 7 := by
  have h := update_progress_zero_total (TaskResult.init "w" 0) 7 (by decide)
  exact ⟨by decide, h.1, h.2⟩

/-- Effect of one `record_failure` on its own domain. -/
theorem record_failure_domain (netloc : String → String) (cb : CircuitBreaker)
    (url : String) (now : Nat) :
    (cb.record_failure netloc url now).failure_threshold = cb.failure_threshold
    ∧ (cb.record_failure netloc url now).timeout_seconds = cb.timeout_seconds
    ∧ (cb.record_failure netloc url now).failures (netloc url)
        = cb.failures (netloc url) + 1
    ∧ (cb.record_failure netloc url now).last_failure_time (netloc url) = now
    ∧ (cb.failures (netloc url) + 1 ≥ cb.failure_threshold →
        (cb.record_failure netloc url now).blocked_domains (netloc url) = true) := by
  unfold CircuitBreaker.record_failure
  refine ⟨rfl, rfl, by simp, by simp, ?_⟩
  intro h
  simp [h]

/-- A run of `record_failure` calls against one domain adds its length to
the failure count and, when the final count reaches the threshold, leaves
the domain blocked. -/
theorem record_failures_domain (netloc : String → String) (d : String) :
    ∀ (l : List (String × Nat)) (cb : CircuitBreaker), (∀ p ∈ l, netloc p.1 = d) →
      (cb.record_failures netloc l).failure_threshold = cb.failure_threshold
      ∧ (cb.record_failures netloc l).timeout_seconds = cb.timeout_seconds
      ∧ (cb.record_failures netloc l).failures d = cb.failures d + l.length
      ∧ (l ≠ [] → cb.failures d + l.length ≥ cb.failure_threshold →
          (cb.record_failures netloc l).blocked_domains d = true) := by
  intro l
  induction l with
  | nil => intro cb _; simp [CircuitBreaker.record_failures]
  | cons p rest ih =>
    intro cb hdom
    have hp : netloc p.1 = d := hdom p (List.mem_cons_self _ _)
    have hrest : ∀ q ∈ rest, netloc q.1 = d := fun q hq => hdom q (List.mem_cons_of_mem _ hq)
    have hstep := record_failure_domain netloc cb p.1 p.2
    have hunf : cb.record_failures netloc (p :: rest)
        = (cb.record_failure netloc p.1 p.2).record_failures netloc rest := rfl
    have hih := ih (cb.record_failure netloc p.1 p.2) hrest
    rw [hp] at hstep
    refine ⟨?_, ?_, ?_, ?_⟩
    · rw [hunf, hih.1, hstep.1]
    · rw [hunf, hih.2.1, hstep.2.1]
    · rw [hunf, hih.2.2.1, hstep.2.2.1]
      simp only [List.length_cons]
      omega
    · intro _ hcount
      rcases rest.eq_nil_or_concat with hnil | _
      · subst hnil
        have : cb.failures d + 1 ≥ cb.failure_threshold := by simpa using hcount
        have hb := hstep.2.2.2.2 this
        simpa [CircuitBreaker.record_failures] using hb
      · rcases Decidable.em (rest = []) with hnil | hne
        · subst hnil
          have : cb.failures d + 1 ≥ cb.failure_threshold := by simpa using hcount
          have hb := hstep.2.2.2.2 this
          simpa [CircuitBreaker.record_failures] using hb
        · rw [hunf]
          apply (hih.2.2.2 hne)
          rw [hstep.2.2.1, hstep.1]
          have : cb.failures d + 1 + rest.length = cb.failures d + (rest.length + 1) := by ring
          rw [this]
          simpa using hcount

/-- C4: with the default threshold 5 and cooldown 300 s — (a) five
`record_failure` calls against one domain with no intervening success leave
`is_blocked` answering true for that domain's URLs (while the cooldown has
not elapsed); (b) `record_success` decrements the domain's count with floor
0 and the domain stays blocked exactly while the decremented count is
nonzero; (c) once a blocked domain's last failure lies more than 300 s in
the past, `is_blocked` resets the count to 0, unblocks the domain, and
answers false without any success. -/
theorem circuit_breaker_spec (netloc : String → String) (d : String) :
    (∀ (cb : CircuitBreaker) (l : List (String × Nat)) (url : String) (now : Nat),
      cb.failure_threshold = 5 → cb.timeout_seconds = 300 →
      l.length = 5 → (∀ p ∈ l, netloc p.1 = d) → netloc url = d →
      now - (cb.record_failures netloc l).last_failure_time d ≤ 300 →
      ((cb.record_failures netloc l).is_blocked netloc url now).1 = true)
    ∧ (∀ (cb : CircuitBreaker) (url : String), netloc url = d → cb.known d = true →
        (cb.record_success netloc url).failures d = cb.failures d - 1
        ∧ (cb.record_success netloc url).blocked_domains d
            = (cb.blocked_domains d && !(decide (cb.failures d - 1 = 0))))
    ∧ (∀ (cb : CircuitBreaker) (url : String) (now : Nat),
        netloc url = d → cb.timeout_seconds = 300 →
        cb.blocked_domains d = true → now - cb.last_failure_time d > 300 →
        (cb.is_blocked netloc url now).1 = false
        ∧ ((cb.is_blocked netloc url now).2).failures d = 0
        ∧ ((cb.is_blocked netloc url now).2).blocked_domains d = false) := by
  refine ⟨?_, ?_, ?_⟩
  · intro cb l url now hthr htmo hlen hdom hurl hcool
    have hfold := record_failures_domain netloc d l cb hdom
    have hne : l ≠ [] := by intro h; rw [h] at hlen; simp at hlen
    have hblocked : (cb.record_failures netloc l).blocked_domains d = true := by
      apply hfold.2.2.2 hne
      rw [hlen, hthr]
      omega
    have htmo' : (cb.record_failures netloc l).timeout_seconds = 300 := by
      rw [hfold.2.1, htmo]
    unfold CircuitBreaker.is_blocked
    rw [hurl]
    simp only [hblocked, htmo']
    have : ¬ (now - (cb.record_failures netloc l).last_failure_time d > 300) := by omega
    simp [this]
  · intro cb url hurl hknown
    unfold CircuitBreaker.record_success
    rw [hurl]
    simp only [hknown, if_true]
    constructor
    · simp
    · by_cases hz : cb.failures d - 1 = 0
      · by_cases hb : cb.blocked_domains d
        · simp [hz, hb]
        · simp [hz, hb]
      · simp [hz]
  · intro cb url now hurl htmo hblocked hcool
    unfold CircuitBreaker.is_blocked
    rw [hurl]
    simp only [hblocked, htmo]
    have hgt : now - cb.last_failure_time d > 300 := hcool
    simp [hgt]

/-- Witness for C4: five failures against domain `"d"` (times 1..6) block
it at `now = 100`; a success then drops the count to 4; at `now = 400` the
cooldown has elapsed and `is_blocked` self-heals. -/
theorem circuit_breaker_spec_witness :
    ((CircuitBreaker.record_failures (fun _ => "d") CircuitBreaker.init
        [("u1", 1), ("u2", 2), ("u3", 3), ("u4", 4), ("u5", 6)]).is_blocked
          (fun _ => "d") "u9" 100).1 = true
    ∧ ((CircuitBreaker.record_failures (fun _ => "d") CircuitBreaker.init
        [("u1", 1), ("u2", 2), ("u3", 3), ("u4", 4), ("u5", 6)]).record_success
          (fun _ => "d") "u1").failures "d" = 4 := by
  have h := circuit_breaker_spec (fun _ => "d") "d"
  constructor
  · exact h.1 CircuitBreaker.init [("u1", 1), ("u2", 2), ("u3", 3), ("u4", 4), ("u5", 6)]
      "u9" 100 rfl rfl rfl (by intro p _; rfl) rfl (by decide)
  · have hb := (h.2.1 (CircuitBreaker.record_failures (fun _ => "d") CircuitBreaker.init
      [("u1", 1), ("u2", 2), ("u3", 3), ("u4", 4), ("u5", 6)]) "u1" rfl (by decide)).1
    rw [hb]
    decide

/-- The event accumulator of `workerGo` only prepends (reversed): data and
breaker do not depend on it. -/
theorem workerGo_acc (netloc : String → String) (url : String) (depth rc now : Nat)
    (attempts : Nat → AttemptOutcome) :
    ∀ (fuel i t : Nat) (cb : CircuitBreaker) (evs : List WorkerEvent),
      workerGo netloc url depth rc now attempts fuel i t cb evs
        = { data := (workerGo netloc url depth rc now attempts fuel i t cb []).data
            breaker := (workerGo netloc url depth rc now attempts fuel i t cb []).breaker
            events :=
              evs.reverse ++ (workerGo netloc url depth rc now attempts fuel i t cb []).events } := by
  intro fuel
  induction fuel with
  | zero => intro i t cb evs; simp [workerGo]
  | succ fuel ih =>
    intro i t cb evs
    cases h : attempts i
    case fetched text => simp [workerGo, h]
    case timeout =>
      by_cases hlt : i < rc
      · simp only [workerGo, h, if_pos hlt]
        rw [ih (i + 1) (max 60 (t / 2)) cb
              (WorkerEvent.sleep 1 :: WorkerEvent.attemptFetch i t :: evs),
            ih (i + 1) (max 60 (t / 2)) cb
              (WorkerEvent.sleep 1 :: WorkerEvent.attemptFetch i t :: [])]
        simp
      · simp [workerGo, h, if_neg hlt]
    case cancelledSignal => simp [workerGo, h]
    case connectionError e =>
      by_cases hlt : i < rc
      · simp only [workerGo, h, if_pos hlt]
        rw [ih (i + 1) t cb
              (WorkerEvent.sleep (min (5 + 2 * i) 15) :: WorkerEvent.attemptFetch i t :: evs),
            ih (i + 1) t cb
              (WorkerEvent.sleep (min (5 + 2 * i) 15) :: WorkerEvent.attemptFetch i t :: [])]
        simp
      · simp [workerGo, h, if_neg hlt]
    case fetchFailed e =>
      by_cases hlt : i < rc
      · simp only [workerGo, h, if_pos hlt]
        rw [ih (i + 1) t cb
              (WorkerEvent.sleep (min (2 ^ i) 5) :: WorkerEvent.attemptFetch i t :: evs),
            ih (i + 1) t cb
              (WorkerEvent.sleep (min (2 ^ i) 5) :: WorkerEvent.attemptFetch i t :: [])]
        simp
      · simp [workerGo, h, if_neg hlt]
    case otherError e =>
      by_cases hlt : i < rc
      · simp only [workerGo, h, if_pos hlt]
        rw [ih (i + 1) t cb
              (WorkerEvent.sleep (min (2 ^ i) 5) :: WorkerEvent.attemptFetch i t :: evs),
            ih (i + 1) t cb
              (WorkerEvent.sleep (min (2 ^ i) 5) :: WorkerEvent.attemptFetch i t :: [])]
        simp
      · simp [workerGo, h, if_neg hlt]

/-- After `k` failing (retryable) attempts the worker loop stands at
attempt `k` with the per-attempt timeout `timeoutSeq attempts t0 k`, the
breaker untouched, and some prefix of events behind it. -/
theorem workerGo_reach (netloc : String → String) (url : String)
    (depth rc now t0 : Nat) (attempts : Nat → AttemptOutcome) (cb : CircuitBreaker) :
    ∀ k, k ≤ rc → (∀ j, j < k → (attempts j).failing = true) →
      ∃ pre : List WorkerEvent,
        workerGo netloc url depth rc now attempts (rc + 1) 0 t0 cb []
          = { data := (workerGo netloc url depth rc now attempts (rc + 1 - k) k
                  (timeoutSeq attempts t0 k) cb []).data
              breaker := (workerGo netloc url depth rc now attempts (rc + 1 - k) k
                  (timeoutSeq attempts t0 k) cb []).breaker
              events := pre ++ (workerGo netloc url depth rc now attempts (rc + 1 - k) k
                  (timeoutSeq attempts t0 k) cb []).events } := by
  intro k
  induction k with
  | zero =>
    intro _ _
    exact ⟨[], by simp [timeoutSeq]⟩
  | succ k ih =>
    intro hk hfail
    have hklt : k < rc := hk
    obtain ⟨pre, hpre⟩ := ih (le_of_lt hklt) (fun j hj => hfail j (Nat.lt_succ_of_lt hj))
    have hfk : (attempts k).failing = true := hfail k (Nat.lt_succ_self k)
    have hfuel : rc + 1 - k = (rc + 1 - (k + 1)) + 1 := by omega
    cases hak : attempts k
    case fetched text => rw [hak] at hfk; simp [AttemptOutcome.failing] at hfk
    case cancelledSignal => rw [hak] at hfk; simp [AttemptOutcome.failing] at hfk
    case timeout =>
      refine ⟨pre ++ [WorkerEvent.attemptFetch k (timeoutSeq attempts t0 k),
        WorkerEvent.sleep 1], ?_⟩
      have hts : timeoutSeq attempts t0 (k + 1)
          = max 60 (timeoutSeq attempts t0 k / 2) := by simp [timeoutSeq, hak]
      rw [hpre, hfuel, hts]
      simp only [workerGo, hak, if_pos hklt]
      rw [workerGo_acc netloc url depth rc now attempts (rc + 1 - (k + 1)) (k + 1)
        (max 60 (timeoutSeq attempts t0 k / 2)) cb
        [WorkerEvent.sleep 1, WorkerEvent.attemptFetch k (timeoutSeq attempts t0 k)]]
      simp
    case connectionError e =>
      refine ⟨pre ++ [WorkerEvent.attemptFetch k (timeoutSeq attempts t0 k),
        WorkerEvent.sleep (min (5 + 2 * k) 15)], ?_⟩
      have hts : timeoutSeq attempts t0 (k + 1) = timeoutSeq attempts t0 k := by
        simp [timeoutSeq, hak]
      rw [hpre, hfuel, hts]
      simp only [workerGo, hak, if_pos hklt]
      rw [workerGo_acc netloc url depth rc now attempts (rc + 1 - (k + 1)) (k + 1)
        (timeoutSeq attempts t0 k) cb
        [WorkerEvent.sleep (min (5 + 2 * k) 15),
         WorkerEvent.attemptFetch k (timeoutSeq attempts t0 k)]]
      simp
    case fetchFailed e =>
      refine ⟨pre ++ [WorkerEvent.attemptFetch k (timeoutSeq attempts t0 k),
        WorkerEvent.sleep (min (2 ^ k) 5)], ?_⟩
      have hts : timeoutSeq attempts t0 (k + 1) = timeoutSeq attempts t0 k := by
        simp [timeoutSeq, hak]
      rw [hpre, hfuel, hts]
      simp only [workerGo, hak, if_pos hklt]
      rw [workerGo_acc netloc url depth rc now attempts (rc + 1 - (k + 1)) (k + 1)
        (timeoutSeq attempts t0 k) cb
        [WorkerEvent.sleep (min (2 ^ k) 5),
         WorkerEvent.attemptFetch k (timeoutSeq attempts t0 k)]]
      simp
    case otherError e =>
      refine ⟨pre ++ [WorkerEvent.attemptFetch k (timeoutSeq attempts t0 k),
        WorkerEvent.sleep (min (2 ^ k) 5)], ?_⟩
      have hts : timeoutSeq attempts t0 (k + 1) = timeoutSeq attempts t0 k := by
        simp [timeoutSeq, hak]
      rw [hpre, hfuel, hts]
      simp only [workerGo, hak, if_pos hklt]
      rw [workerGo_acc netloc url depth rc now attempts (rc + 1 - (k + 1)) (k + 1)
        (timeoutSeq attempts t0 k) cb
        [WorkerEvent.sleep (min (2 ^ k) 5),
         WorkerEvent.attemptFetch k (timeoutSeq attempts t0 k)]]
      simp

/-- With fuel left, the loop's next event is the fetch attempt at the
current index and timeout. -/
theorem workerGo_attempt_mem (netloc : String → String) (url : String)
    (depth rc now : Nat) (attempts : Nat → AttemptOutcome)
    (fuel i t : Nat) (cb : CircuitBreaker) (hfuel : 0 < fuel) :
    WorkerEvent.attemptFetch i t
      ∈ (workerGo netloc url depth rc now attempts fuel i t cb []).events := by
  obtain ⟨f, rfl⟩ : ∃ f, fuel = f + 1 := ⟨fuel - 1, by omega⟩
  cases hak : attempts i
  case fetched text => simp [workerGo, hak]
  case cancelledSignal => simp [workerGo, hak]
  case timeout =>
    by_cases hlt : i < rc
    · simp only [workerGo, hak, if_pos hlt]
      rw [workerGo_acc]
      simp
    · simp [workerGo, hak, if_neg hlt]
  case connectionError e =>
    by_cases hlt : i < rc
    · simp only [workerGo, hak, if_pos hlt]
      rw [workerGo_acc]
      simp
    · simp [workerGo, hak, if_neg hlt]
  case fetchFailed e =>
    by_cases hlt : i < rc
    · simp only [workerGo, hak, if_pos hlt]
      rw [workerGo_acc]
      simp
    · simp [workerGo, hak, if_neg hlt]
  case otherError e =>
    by_cases hlt : i < rc
    · simp only [workerGo, hak, if_pos hlt]
      rw [workerGo_acc]
      simp
    · simp [workerGo, hak, if_neg hlt]

/-- A retried connection error sleeps `min (5 + 2*attempt) 15` seconds. -/
theorem workerGo_sleep_mem_conn (netloc : String → String) (url : String)
    (depth rc now : Nat) (attempts : Nat → AttemptOutcome)
    (fuel i t : Nat) (cb : CircuitBreaker) (hfuel : 0 < fuel) (hlt : i < rc)
    (e : String) (hak : attempts i = AttemptOutcome.connectionError e) :
    WorkerEvent.sleep (min (5 + 2 * i) 15)
      ∈ (workerGo netloc url depth rc now attempts fuel i t cb []).events := by
  obtain ⟨f, rfl⟩ : ∃ f, fuel = f + 1 := ⟨fuel - 1, by omega⟩
  simp only [workerGo, hak, if_pos hlt]
  rw [workerGo_acc]
  simp

/-- A retried generic error sleeps `min (2^attempt) 5` seconds. -/
theorem workerGo_sleep_mem_other (netloc : String → String) (url : String)
    (depth rc now : Nat) (attempts : Nat → AttemptOutcome)
    (fuel i t : Nat) (cb : CircuitBreaker) (hfuel : 0 < fuel) (hlt : i < rc)
    (e : String)
    (hak : attempts i = AttemptOutcome.otherError e
      ∨ attempts i = AttemptOutcome.fetchFailed e) :
    WorkerEvent.sleep (min (2 ^ i) 5)
      ∈ (workerGo netloc url depth rc now attempts fuel i t cb []).events := by
  obtain ⟨f, rfl⟩ : ∃ f, fuel = f + 1 := ⟨fuel - 1, by omega⟩
  rcases hak with hak | hak
  · simp only [workerGo, hak, if_pos hlt]
    rw [workerGo_acc]
    simp
  · simp only [workerGo, hak, if_pos hlt]
    rw [workerGo_acc]
    simp

/-- A failing attempt with no retries left records a circuit-breaker
failure and returns `None`. -/
theorem workerGo_exhaust (netloc : String → String) (url : String)
    (depth rc now : Nat) (attempts : Nat → AttemptOutcome)
    (f i t : Nat) (cb : CircuitBreaker) (hnlt : ¬ i < rc)
    (hfail : (attempts i).failing = true) :
    workerGo netloc url depth rc now attempts (f + 1) i t cb []
      = ⟨none, cb.record_failure netloc url now,
          [WorkerEvent.attemptFetch i t, WorkerEvent.breakerFailure]⟩ := by
  cases hak : attempts i
  case fetched text => rw [hak] at hfail; simp [AttemptOutcome.failing] at hfail
  case cancelledSignal => rw [hak] at hfail; simp [AttemptOutcome.failing] at hfail
  case timeout => simp [workerGo, hak, if_neg hnlt]
  case connectionError e => simp [workerGo, hak, if_neg hnlt]
  case fetchFailed e => simp [workerGo, hak, if_neg hnlt]
  case otherError e => simp [workerGo, hak, if_neg hnlt]

/-- C9: in `_scrape_article_with_timeout`'s retry loop (attempts
`0..retry_count`, breaker not blocking): (a) as long as every earlier
attempt failed retryably, attempt `k` is issued under the per-attempt
timeout `timeoutSeq` — halved with floor 60 s after a timeout, unchanged
otherwise; (b) a retried connection-class error backs off
`min (5+2*attempt) 15` seconds; (c) a retried other error backs off
`min (2^attempt) 5` seconds; (d) when every attempt fails (any mix of the
three error classes), the worker returns `None` and calls the circuit
breaker's `record_failure` for the URL. -/
theorem worker_retry_backoff_spec (netloc : String → String) (cb : CircuitBreaker)
    (url : String) (depth rc t0 now : Nat) (attempts : Nat → AttemptOutcome)
    (hnb : (cb.is_blocked netloc url now).1 = false) :
    (∀ k, k ≤ rc → (∀ j, j < k → (attempts j).failing = true) →
      WorkerEvent.attemptFetch k (timeoutSeq attempts t0 k)
        ∈ (scrape_article_with_timeout netloc cb url depth rc t0 now attempts).events)
    ∧ (∀ i, i < rc → (∀ j, j < i → (attempts j).failing = true) →
        ∀ e, attempts i = AttemptOutcome.connectionError e →
        WorkerEvent.sleep (min (5 + 2 * i) 15)
          ∈ (scrape_article_with_timeout netloc cb url depth rc t0 now attempts).events)
    ∧ (∀ i, i < rc → (∀ j, j < i → (attempts j).failing = true) →
        ∀ e, (attempts i = AttemptOutcome.otherError e
          ∨ attempts i = AttemptOutcome.fetchFailed e) →
        WorkerEvent.sleep (min (2 ^ i) 5)
          ∈ (scrape_article_with_timeout netloc cb url depth rc t0 now attempts).events)
    ∧ ((∀ j, j ≤ rc → (attempts j).failing = true) →
        (scrape_article_with_timeout netloc cb url depth rc t0 now attempts).data = none
        ∧ (scrape_article_with_timeout netloc cb url depth rc t0 now attempts).breaker
            = ((cb.is_blocked netloc url now).2).record_failure netloc url now) := by
  have hrun : scrape_article_with_timeout netloc cb url depth rc t0 now attempts
      = workerGo netloc url depth rc now attempts (rc + 1) 0 t0
          (cb.is_blocked netloc url now).2 [] := by
    unfold scrape_article_with_timeout
    simp [hnb]
  refine ⟨?_, ?_, ?_, ?_⟩
  · intro k hk hfailb
    rw [hrun]
    obtain ⟨pre, hpre⟩ := workerGo_reach netloc url depth rc now t0 attempts
      (cb.is_blocked netloc url now).2 k hk hfailb
    rw [hpre]
    exact List.mem_append.mpr (Or.inr (workerGo_attempt_mem netloc url depth rc now
      attempts (rc + 1 - k) k (timeoutSeq attempts t0 k)
      (cb.is_blocked netloc url now).2 (by omega)))
  · intro i hi hfailb e hak
    rw [hrun]
    obtain ⟨pre, hpre⟩ := workerGo_reach netloc url depth rc now t0 attempts
      (cb.is_blocked netloc url now).2 i (le_of_lt hi) hfailb
    rw [hpre]
    exact List.mem_append.mpr (Or.inr (workerGo_sleep_mem_conn netloc url depth rc now
      attempts (rc + 1 - i) i (timeoutSeq attempts t0 i)
      (cb.is_blocked netloc url now).2 (by omega) hi e hak))
  · intro i hi hfailb e hak
    rw [hrun]
    obtain ⟨pre, hpre⟩ := workerGo_reach netloc url depth rc now t0 attempts
      (cb.is_blocked netloc url now).2 i (le_of_lt hi) hfailb
    rw [hpre]
    exact List.mem_append.mpr (Or.inr (workerGo_sleep_mem_other netloc url depth rc now
      attempts (rc + 1 - i) i (timeoutSeq attempts t0 i)
      (cb.is_blocked netloc url now).2 (by omega) hi e hak))
  · intro hfail
    obtain ⟨pre, hpre⟩ := workerGo_reach netloc url depth rc now t0 attempts
      (cb.is_blocked netloc url now).2 rc le_rfl
      (fun j hj => hfail j (le_of_lt hj))
    have h1 : rc + 1 - rc = 0 + 1 := by omega
    rw [h1] at hpre
    rw [workerGo_exhaust netloc url depth rc now attempts 0 rc
      (timeoutSeq attempts t0 rc) (cb.is_blocked netloc url now).2
      (by omega) (hfail rc le_rfl)] at hpre
    rw [hrun, hpre]
    exact ⟨rfl, rfl⟩

/-- Witness for C9: `retry_count = 3`, initial timeout 180 s, attempts
timeout / connection error / other error / timeout.  The halved timeout 90
is in force from attempt 1 on, the connection backoff at attempt 1 is 7 s,
the generic backoff at attempt 2 is 4 s, and the exhausted run returns
`None`. -/
theorem worker_retry_backoff_spec_witness :
    WorkerEvent.attemptFetch 2 90
      ∈ (scrape_article_with_timeout id CircuitBreaker.init "u" 1 3 180 9
          (fun j => if j = 0 then AttemptOutcome.timeout
            else if j = 1 then AttemptOutcome.connectionError "x"
            else if j = 2 then AttemptOutcome.otherError "y"
            else AttemptOutcome.timeout)).events
    ∧ WorkerEvent.sleep 7
      ∈ (scrape_article_with_timeout id CircuitBreaker.init "u" 1 3 180 9
          (fun j => if j = 0 then AttemptOutcome.timeout
            else if j = 1 then AttemptOutcome.connectionError "x"
            else if j = 2 then AttemptOutcome.otherError "y"
            else AttemptOutcome.timeout)).events
    ∧ WorkerEvent.sleep 4
      ∈ (scrape_article_with_timeout id CircuitBreaker.init "u" 1 3 180 9
          (fun j => if j = 0 then AttemptOutcome.timeout
            else if j = 1 then AttemptOutcome.connectionError "x"
            else if j = 2 then AttemptOutcome.otherError "y"
            else AttemptOutcome.timeout)).events
    ∧ (scrape_article_with_timeout id CircuitBreaker.init "u" 1 3 180 9
          (fun j => if j = 0 then AttemptOutcome.timeout
            else if j = 1 then AttemptOutcome.connectionError "x"
            else if j = 2 then AttemptOutcome.otherError "y"
            else AttemptOutcome.timeout)).data = none := by
  have h := worker_retry_backoff_spec id CircuitBreaker.init "u" 1 3 180 9
    (fun j => if j = 0 then AttemptOutcome.timeout
      else if j = 1 then AttemptOutcome.connectionError "x"
      else if j = 2 then AttemptOutcome.otherError "y"
      else AttemptOutcome.timeout) (by decide)
  refine ⟨?_, ?_, ?_, ?_⟩
  · have hm := h.1 2 (by decide) (by decide)
    have ht : timeoutSeq (fun j => if j = 0 then AttemptOutcome.timeout
      else if j = 1 then AttemptOutcome.connectionError "x"
      else if j = 2 then AttemptOutcome.otherError "y"
      else AttemptOutcome.timeout) 180 2 = 90 := by decide
    rwa [ht] at hm
  · have hm := h.2.1 1 (by decide) (by decide) "x" (by decide)
    simpa using hm
  · have hm := h.2.2.1 2 (by decide) (by decide) "y" (Or.inl (by decide))
    simpa using hm
  · exact (h.2.2.2 (by decide)).1

/-- C5: when phase-1 discovery fails (fetch error or the 5-minute
discovery ceiling), the task ends `Failed` with `totalItems = 0`, exactly
one recorded error, and no article task is ever dispatched. -/
theorem discovery_failure_spec (task_id : String) (req : ScrapeRequest)
    (timeout_minutes : Nat) (env : ExecEnv) :
    (∀ err, env.disc = DiscoveryOutcome.discFail err →
      (execute_multi_depth_scrape task_id req timeout_minutes env).final.status
          = TaskStatus.failed
      ∧ (execute_multi_depth_scrape task_id req timeout_minutes env).final.total_items = 0
      ∧ (execute_multi_depth_scrape task_id req timeout_minutes env).final.errors
          = ["Task execution failed: " ++ ("Failed to scrape main page: " ++ err)]
      ∧ (execute_multi_depth_scrape task_id req timeout_minutes env).dispatched = 0)
    ∧ (env.disc = DiscoveryOutcome.discTimeout →
      (execute_multi_depth_scrape task_id req timeout_minutes env).final.status
          = TaskStatus.failed
      ∧ (execute_multi_depth_scrape task_id req timeout_minutes env).final.total_items = 0
      ∧ (execute_multi_depth_scrape task_id req timeout_minutes env).final.errors
          = ["Task execution failed: Main page scraping timed out after 5 minutes"]
      ∧ (execute_multi_depth_scrape task_id req timeout_minutes env).dispatched = 0) := by
  constructor
  · intro err hdisc
    simp [execute_multi_depth_scrape, executeCore, hdisc, exceptPath,
      ExecState.snap, ExecState.tick, TaskResult.add_error, TaskResult.init]
  · intro hdisc
    simp [execute_multi_depth_scrape, executeCore, hdisc, exceptPath,
      ExecState.snap, ExecState.tick, TaskResult.add_error, TaskResult.init]

/-- Witness for C5 at a concrete failing discovery. -/
theorem discovery_failure_spec_witness :
    ({ max_concurrent_articles := 10
       disc := DiscoveryOutcome.discFail "net down"
       elapsedBefore := fun _ => 0
       articleResult := fun _ => BatchItemResult.noneResult
       batchTimedOut := fun _ => false
       notDone := fun _ _ => false
       finalElapsed := 0
       cancelObservedAt := none
       classification := Except.ok [] } : ExecEnv).disc
      = DiscoveryOutcome.discFail "net down"
    ∧ (execute_multi_depth_scrape "t"
        { url := "http://m/", question := none, max_depth := 2, categories := none } 30
        { max_concurrent_articles := 10
          disc := DiscoveryOutcome.discFail "net down"
          elapsedBefore := fun _ => 0
          articleResult := fun _ => BatchItemResult.noneResult
          batchTimedOut := fun _ => false
          notDone := fun _ _ => false
          finalElapsed := 0
          cancelObservedAt := none
          classification := Except.ok [] }).final.status = TaskStatus.failed
    ∧ (execute_multi_depth_scrape "t"
        { url := "http://m/", question := none, max_depth := 2, categories := none } 30
        { max_concurrent_articles := 10
          disc := DiscoveryOutcome.discFail "net down"
          elapsedBefore := fun _ => 0
          articleResult := fun _ => BatchItemResult.noneResult
          batchTimedOut := fun _ => false
          notDone := fun _ _ => false
          finalElapsed := 0
          cancelObservedAt := none
          classification := Except.ok [] }).final.errors
        = ["Task execution failed: Failed to scrape main page: net down"]
    ∧ (execute_multi_depth_scrape "t"
        { url := "http://m/", question := none, max_depth := 2, categories := none } 30
        { max_concurrent_articles := 10
          disc := DiscoveryOutcome.discFail "net down"
          elapsedBefore := fun _ => 0
          articleResult := fun _ => BatchItemResult.noneResult
          batchTimedOut := fun _ => false
          notDone := fun _ _ => false
          finalElapsed := 0
          cancelObservedAt := none
          classification := Except.ok [] }).dispatched = 0 := by
  have h := (discovery_failure_spec "t"
    { url := "http://m/", question := none, max_depth := 2, categories := none } 30
    { max_concurrent_articles := 10
      disc := DiscoveryOutcome.discFail "net down"
      elapsedBefore := fun _ => 0
      articleResult := fun _ => BatchItemResult.noneResult
      batchTimedOut := fun _ => false
      notDone := fun _ _ => false
      finalElapsed := 0
      cancelObservedAt := none
      classification := Except.ok [] }).1 "net down" rfl
  exact ⟨rfl, h.1, h.2.2.1, h.2.2.2⟩

/-- C1 counterexample: in the 3-link scenario where the third article
fetch exhausts its connection retries inside the time budget, the worker
returns `None` (no exception reaches the gather list), so the batch loop
counts the failure without appending any error string, and the finalize
step — which derives `Partial` only from recorded error strings or a
blown deadline — marks the task `Completed`.  The claimed outcome
(`Partial` with an error string present) is false here. -/
theorem three_links_one_conn_failure_cex :
    c1Run.final.completed_items = 3
    ∧ c1Run.final.failed_items = 1
    ∧ c1Run.final.total_items = 4
    ∧ c1Run.final.status = TaskStatus.completed
    ∧ c1Run.final.errors = []
    ∧ ¬ (c1Run.final.status = TaskStatus.partialStatus ∧ c1Run.final.errors ≠ []) := by
  decide

/-- C1 amended: in that scenario the task ends `Completed` (not `Partial`)
with `completedItems = 3`, `failedItems = 1` and no error string, because
an exhausted worker returns `None` without raising, and finalize grades
`Partial` only on recorded error strings or an exceeded deadline. -/
theorem three_links_one_conn_failure_amended
    (task_id text l1 l2 l3 u : String) (req : ScrapeRequest)
    (timeout_minutes rc t0 now : Nat) (env : ExecEnv)
    (netloc : String → String) (cb : CircuitBreaker)
    (attempts : Nat → AttemptOutcome) (d1 d2 : ScrapedItem)
    (hdisc : env.disc = DiscoveryOutcome.discOk text [l1, l2, l3])
    (hdepth : req.max_depth > 1)
    (hq : req.questionTruthy = false)
    (hmca : 3 ≤ min env.max_concurrent_articles 10)
    (he0 : env.elapsedBefore 0 < timeout_minutes * 60)
    (h60 : env.elapsedBefore 0 + 60 ≤ timeout_minutes * 60)
    (hbt : env.batchTimedOut 0 = false)
    (hcan : env.cancelObservedAt = none)
    (hfe : env.finalElapsed < timeout_minutes * 60)
    (ha0 : env.articleResult 0 = BatchItemResult.ok d1)
    (ha1 : env.articleResult 1 = BatchItemResult.ok d2)
    (hnb : (cb.is_blocked netloc u now).1 = false)
    (hconn : ∀ j, ∃ e, attempts j = AttemptOutcome.connectionError e)
    (ha2 : env.articleResult 2
      = BatchItemResult.ofOption
          (scrape_article_with_timeout netloc cb u 1 rc t0 now attempts).data) :
    (execute_multi_depth_scrape task_id req timeout_minutes env).final.status
        = TaskStatus.completed
    ∧ (execute_multi_depth_scrape task_id req timeout_minutes env).final.completed_items = 3
    ∧ (execute_multi_depth_scrape task_id req timeout_minutes env).final.failed_items = 1
    ∧ (execute_multi_depth_scrape task_id req timeout_minutes env).final.total_items = 4
    ∧ (execute_multi_depth_scrape task_id req timeout_minutes env).final.errors = [] := by
  have hwd : (scrape_article_with_timeout netloc cb u 1 rc t0 now attempts).data = none :=
    ((worker_retry_backoff_spec netloc cb u 1 rc t0 now attempts hnb).2.2.2
      (fun j _ => by obtain ⟨e, he⟩ := hconn j; rw [he]; rfl)).1
  have ha2' : env.articleResult 2 = BatchItemResult.noneResult := by
    rw [ha2, hwd]; rfl
  have hbS : 3 ≤ min env.max_concurrent_articles 10 := hmca
  have htake : List.take (min env.max_concurrent_articles 10) [l1, l2, l3] = [l1, l2, l3] :=
    List.take_of_length_le (by simpa using hbS)
  have hdrop : List.drop (min env.max_concurrent_articles 10) [l1, l2, l3] = [] :=
    List.drop_eq_nil_of_le (by simpa using hbS)
  have hge : ¬ (env.elapsedBefore 0 ≥ timeout_minutes * 60) := by omega
  have h60' : ¬ (timeout_minutes * 60 - env.elapsedBefore 0 < 60) := by omega
  have hfe' : ¬ (env.finalElapsed ≥ timeout_minutes * 60) := by omega
  have hb0 : ¬ (min env.max_concurrent_articles 10 = 0) := by omega
  simp only [execute_multi_depth_scrape, executeCore, hdisc, ExecState.snap,
    ExecState.tick, TaskResult.init]
  simp only [List.length_cons, List.length_nil, ne_eq, reduceCtorEq,
    not_false_eq_true, hdepth, and_true, if_true, hb0, if_false, ite_true, ite_false,
    true_and, List.cons_ne_self]
  simp [phase2Go, processBatchResults, hge, h60', htake, hdrop, hcan, hbt,
    ha0, ha1, ha2', ExecState.snap, ExecState.tick, TaskResult.add_result,
    TaskResult.add_error, TaskResult.update_progress, executeCore.finalize,
    phase3, hq, hfe']

/-- Witness for the amended C1 at the concrete scenario `c1Env`. -/
theorem three_links_one_conn_failure_amended_witness :
    c1Run.final.status = TaskStatus.completed
    ∧ c1Run.final.completed_items = 3
    ∧ c1Run.final.failed_items = 1
    ∧ c1Run.final.errors = [] := by
  have h := three_links_one_conn_failure_amended "t1" "main text"
    "http://m/a1" "http://m/a2" "http://m/a3" "http://m/a3" c1Request 30 3 180 1000 c1Env
    id CircuitBreaker.init c1Attempts
    (mkArticleData "http://m/a1" "t1" 1 0 180 10)
    (mkArticleData "http://m/a2" "t2" 1 0 180 11)
    rfl (by decide) rfl (by decide) (by decide) (by decide) rfl rfl (by decide)
    rfl rfl (by decide) (fun j => ⟨"refused", rfl⟩) rfl
  exact ⟨h.1, h.2.1, h.2.2.1, h.2.2.2.2⟩

/-- C8: when phase 3 runs and the classification step fails, the only
change to the record decided at finalize is one appended task-level error
string: status, counters, totals, results and `completedAt` keep the values
the finalize step fixed. -/
theorem classification_failure_frame (task_id : String) (req : ScrapeRequest)
    (timeout_minutes : Nat) (env : ExecEnv) (msg : String)
    (hc : env.classification = Except.error msg)
    (hab : (executeCore task_id req timeout_minutes env).aborted = false)
    (hra : (executeCore task_id req timeout_minutes env).raised = false)
    (hq : req.questionTruthy = true)
    (hres : (executeCore task_id req timeout_minutes env).final.results.length > 0) :
    (execute_multi_depth_scrape task_id req timeout_minutes env).final.status
        = (executeCore task_id req timeout_minutes env).final.status
    ∧ (execute_multi_depth_scrape task_id req timeout_minutes env).final.completed_items
        = (executeCore task_id req timeout_minutes env).final.completed_items
    ∧ (execute_multi_depth_scrape task_id req timeout_minutes env).final.failed_items
        = (executeCore task_id req timeout_minutes env).final.failed_items
    ∧ (execute_multi_depth_scrape task_id req timeout_minutes env).final.total_items
        = (executeCore task_id req timeout_minutes env).final.total_items
    ∧ (execute_multi_depth_scrape task_id req timeout_minutes env).final.results
        = (executeCore task_id req timeout_minutes env).final.results
    ∧ (execute_multi_depth_scrape task_id req timeout_minutes env).final.completed_at
        = (executeCore task_id req timeout_minutes env).final.completed_at
    ∧ (execute_multi_depth_scrape task_id req timeout_minutes env).final.errors
        = (executeCore task_id req timeout_minutes env).final.errors
            ++ ["AI behavior analysis failed: " ++ msg] := by
  unfold execute_multi_depth_scrape
  simp only [hab, hra, Bool.false_eq_true, or_self, if_false, ite_false]
  unfold phase3
  rw [hc]
  simp [hq, hres, TaskResult.add_error]

/-- Witness for C8: the 3-link scenario with a question attached and a
failing classifier appends exactly one error and keeps the finalize
status. -/
theorem classification_failure_frame_witness :
    (execute_multi_depth_scrape "t8"
        { url := "http://m/", question := some "q?", max_depth := 2, categories := none } 30
        { c1Env with classification := Except.error "boom" }).final.status
      = (executeCore "t8"
        { url := "http://m/", question := some "q?", max_depth := 2, categories := none } 30
        { c1Env with classification := Except.error "boom" }).final.status
    ∧ (execute_multi_depth_scrape "t8"
        { url := "http://m/", question := some "q?", max_depth := 2, categories := none } 30
        { c1Env with classification := Except.error "boom" }).final.errors
      = ["AI behavior analysis failed: boom"] := by
  have h := classification_failure_frame "t8"
    { url := "http://m/", question := some "q?", max_depth := 2, categories := none } 30
    { c1Env with classification := Except.error "boom" } "boom"
    rfl (by decide) (by decide) (by decide) (by decide)
  refine ⟨h.1, ?_⟩
  rw [h.2.2.2.2.2.2]
  decide

/-- C2 counterexample: the registry keeps finished tasks, and
`cancel_task` only checks membership — cancelling an already-`Completed`
task succeeds and moves it to `Cancelled`, an outgoing transition from a
terminal state. -/
theorem terminal_no_transitions_cex :
    (c2Orch.tasks "done").map TaskResult.status = some TaskStatus.completed
    ∧ TaskStatus.completed.isTerminal = true
    ∧ (cancel_task c2Orch "done" 42).1 = true
    ∧ ((cancel_task c2Orch "done" 42).2.2.tasks "done").map TaskResult.status
        = some TaskStatus.cancelled
    ∧ TaskStatus.cancelled ≠ TaskStatus.completed := by
  decide

/-- C2 amended: a terminal status is not final against `cancel_task`: for
any tracked task whose status is terminal, `cancel_task` still returns
true and rewrites the status to `Cancelled` (stamping `completedAt`); this
is the outgoing transition terminal states admit. -/
theorem terminal_cancel_transition (o : Orchestrator) (tid : String)
    (tr : TaskResult) (now : Nat) (htid : o.tasks tid = some tr)
    (hterm : tr.status.isTerminal = true) :
    (cancel_task o tid now).1 = true
    ∧ ((cancel_task o tid now).2.2.tasks tid).map TaskResult.status
        = some TaskStatus.cancelled
    ∧ ((cancel_task o tid now).2.2.tasks tid).map TaskResult.completed_at
        = some (some now) := by
  unfold cancel_task
  rw [htid]
  simp [Function.update]

/-- Witness for the amended C2 at the concrete completed-task registry. -/
theorem terminal_cancel_transition_witness :
    c2Orch.tasks "done" = some c2Record
    ∧ c2Record.status.isTerminal = true
    ∧ (cancel_task c2Orch "done" 42).1 = true
    ∧ ((cancel_task c2Orch "done" 42).2.2.tasks "done").map TaskResult.status
        = some TaskStatus.cancelled := by
  have h := terminal_cancel_transition c2Orch "done" c2Record 42 (by decide) (by decide)
  exact ⟨by decide, by decide, h.1, h.2.1⟩

/-- Chaining of trace extensions. -/
theorem trace_ext_trans {l m t : List TaskResult} (h1 : ∃ e, l = e ++ m)
    (h2 : ∃ e, m = e ++ t) : ∃ e, l = e ++ t := by
  obtain ⟨e1, rfl⟩ := h1
  obtain ⟨e2, rfl⟩ := h2
  exact ⟨e1 ++ e2, by simp⟩

/-- Batch-result processing only pushes snapshots onto the trace. -/
theorem processBatchResults_trace_extends (env : ExecEnv) (gi : Nat) :
    ∀ (cnt j cc fc : Nat) (s : ExecState),
      ∃ ext, (processBatchResults env gi cnt j cc fc s).2.2.trace = ext ++ s.trace := by
  intro cnt
  induction cnt with
  | zero => intro j cc fc s; exact ⟨[], by simp [processBatchResults]⟩
  | succ cnt ih =>
    intro j cc fc s
    cases har : env.articleResult (gi + j)
    case exn msg =>
      simp only [processBatchResults, har]
      exact trace_ext_trans (ih _ _ _ _) ⟨[_, _], rfl⟩
    case ok d =>
      simp only [processBatchResults, har]
      exact trace_ext_trans (ih _ _ _ _) ⟨[_, _], rfl⟩
    case noneResult =>
      simp only [processBatchResults, har]
      exact trace_ext_trans (ih _ _ _ _) ⟨[_], rfl⟩

/-- The phase-2 loop only pushes snapshots onto the trace. -/
theorem phase2Go_trace_extends (env : ExecEnv) (budget bs : Nat) :
    ∀ (fuel : Nat) (links : List String) (k gi cc fc : Nat) (s : ExecState),
      ∃ ext, (phase2Go env budget bs fuel links k gi cc fc s).2.2.2.trace
        = ext ++ s.trace := by
  intro fuel
  induction fuel with
  | zero => intro links k gi cc fc s; exact ⟨[], by simp [phase2Go]⟩
  | succ fuel ih =>
    intro links k gi cc fc s
    cases links with
    | nil => exact ⟨[], by simp [phase2Go]⟩
    | cons link rest0 =>
      by_cases hge : env.elapsedBefore k ≥ budget
      · exact ⟨[], by simp [phase2Go, hge]⟩
      · by_cases h60 : budget - env.elapsedBefore k < 60
        · simp only [phase2Go, if_neg hge, if_pos h60]
          exact ih _ _ _ _ _ _
        · by_cases hcan : env.cancelObservedAt = some k
          · exact ⟨[], by simp [phase2Go, hge, h60, hcan]⟩
          · by_cases hbt : env.batchTimedOut k
            · simp only [phase2Go, if_neg hge, if_neg h60, if_pos hbt, if_neg hcan]
              exact ⟨[_], rfl⟩
            · simp only [phase2Go, if_neg hge, if_neg h60, if_neg hbt, if_neg hcan]
              exact trace_ext_trans (ih _ _ _ _ _ _)
                (processBatchResults_trace_extends env gi _ _ _ _ _)

/-- `processBatchResults` only consults `articleResult`. -/
theorem processBatchResults_congr (env1 env2 : ExecEnv)
    (har : env1.articleResult = env2.articleResult) (gi : Nat) :
    ∀ (cnt j cc fc : Nat) (s : ExecState),
      processBatchResults env1 gi cnt j cc fc s
        = processBatchResults env2 gi cnt j cc fc s := by
  intro cnt
  induction cnt with
  | zero => intro j cc fc s; simp [processBatchResults]
  | succ cnt ih =>
    intro j cc fc s
    simp only [processBatchResults, har]
    cases env2.articleResult (gi + j) <;> exact ih _ _ _ _

/-- Two phase-2 runs differing only in the cancellation point: the
cancelled run's trace is a tail (earliest snapshots) of the uncancelled
run's, and if the cancellation point is never reached the runs coincide. -/
theorem phase2Go_cancel_cutoff (envC envN : ExecEnv) (budget bs k0 : Nat)
    (har : envC.articleResult = envN.articleResult)
    (hel : envC.elapsedBefore = envN.elapsedBefore)
    (hbt : envC.batchTimedOut = envN.batchTimedOut)
    (hnd : envC.notDone = envN.notDone)
    (hC : envC.cancelObservedAt = some k0)
    (hN : envN.cancelObservedAt = none) :
    ∀ (fuel : Nat) (links : List String) (k gi cc fc : Nat) (s : ExecState),
      (∃ ext, (phase2Go envN budget bs fuel links k gi cc fc s).2.2.2.trace
          = ext ++ (phase2Go envC budget bs fuel links k gi cc fc s).2.2.2.trace)
      ∧ ((phase2Go envC budget bs fuel links k gi cc fc s).1 = false →
          phase2Go envC budget bs fuel links k gi cc fc s
            = phase2Go envN budget bs fuel links k gi cc fc s) := by
  intro fuel
  induction fuel with
  | zero =>
    intro links k gi cc fc s
    exact ⟨⟨[], by simp [phase2Go]⟩, fun _ => by simp [phase2Go]⟩
  | succ fuel ih =>
    intro links k gi cc fc s
    cases links with
    | nil => exact ⟨⟨[], by simp [phase2Go]⟩, fun _ => by simp [phase2Go]⟩
    | cons l r =>
      by_cases hge : envN.elapsedBefore k ≥ budget
      · refine ⟨⟨[], ?_⟩, fun _ => ?_⟩ <;> simp [phase2Go, hge, hel]
      · by_cases h60 : budget - envN.elapsedBefore k < 60
        · have hgeC : ¬ (envC.elapsedBefore k ≥ budget) := by rw [hel]; exact hge
          have h60C : budget - envC.elapsedBefore k < 60 := by rw [hel]; exact h60
          simp only [phase2Go, if_neg hge, if_neg hgeC, if_pos h60, if_pos h60C]
          exact ih _ _ _ _ _ _
        · have hgeC : ¬ (envC.elapsedBefore k ≥ budget) := by rw [hel]; exact hge
          have h60C : ¬ (budget - envC.elapsedBefore k < 60) := by rw [hel]; exact h60
          by_cases hk : k0 = k
          · -- cancellation observed at this batch's await: envC stops here
            have hcanC : envC.cancelObservedAt = some k := by rw [hC, hk]
            have hcanN : ¬ (envN.cancelObservedAt = some k) := by rw [hN]; simp
            constructor
            · simp only [phase2Go, if_neg hgeC, if_neg hge, if_neg h60C, if_neg h60,
                if_pos hcanC, if_neg hcanN]
              by_cases hbtN : envN.batchTimedOut k
              · simp only [if_pos hbtN]
                exact ⟨[_], rfl⟩
              · simp only [if_neg hbtN]
                refine trace_ext_trans (phase2Go_trace_extends envN budget bs _ _ _ _ _ _ _)
                  (trace_ext_trans
                    (processBatchResults_trace_extends envN gi _ _ _ _ _) ⟨[], rfl⟩)
            · intro habs
              exfalso
              revert habs
              simp [phase2Go, if_neg hgeC, if_neg h60C, hcanC]
          · -- cancellation point elsewhere: both runs take the same step
            have hcanC : ¬ (envC.cancelObservedAt = some k) := by
              rw [hC]; simpa using hk
            have hcanN : ¬ (envN.cancelObservedAt = some k) := by rw [hN]; simp
            by_cases hbtN : envN.batchTimedOut k
            · have hbtC : envC.batchTimedOut k := by rw [hbt]; exact hbtN
              refine ⟨⟨[], ?_⟩, fun _ => ?_⟩ <;>
                simp [phase2Go, if_neg hge, if_neg hgeC, if_neg h60, if_neg h60C,
                  if_neg hcanC, if_neg hcanN, hbtC, hbtN, hnd]
            · have hbtC : ¬ envC.batchTimedOut k := by rw [hbt]; exact hbtN
              simp only [phase2Go, if_neg hge, if_neg hgeC, if_neg h60, if_neg h60C,
                if_neg hcanC, if_neg hcanN, if_neg hbtC, if_neg hbtN]
              rw [processBatchResults_congr envC envN har gi]
              exact ih _ _ _ _ _ _

/-- C6: `cancel_task` returns false for unknown ids and leaves the state
alone; for a tracked id it returns true, sets `Cancelled`, stamps
`completedAt`, signals the execution routine exactly when one is still
active, and drops the id from the active map.  Cooperative cancellation:
a worker attempt observing the cancellation signal returns `None` at once
— no further attempt, no breaker failure recorded; and once the execution
routine observes cancellation at a batch await, its snapshot trace is cut
off exactly there (the uncancelled run's trace extends it — no further
`update_progress` is applied), with the unwound routine also skipping
phase 3. -/
theorem cancel_task_spec :
    (∀ (o : Orchestrator) (tid : String) (now : Nat), o.tasks tid = none →
      cancel_task o tid now = (false, false, o))
    ∧ (∀ (o : Orchestrator) (tid : String) (tr : TaskResult) (now : Nat),
        o.tasks tid = some tr →
        (cancel_task o tid now).1 = true
        ∧ ((cancel_task o tid now).2.2.tasks tid).map TaskResult.status
            = some TaskStatus.cancelled
        ∧ ((cancel_task o tid now).2.2.tasks tid).map TaskResult.completed_at
            = some (some now)
        ∧ (cancel_task o tid now).2.1 = o.active tid
        ∧ (cancel_task o tid now).2.2.active tid = false)
    ∧ (∀ (netloc : String → String) (cb : CircuitBreaker) (url : String)
        (depth rc t0 now i : Nat) (attempts : Nat → AttemptOutcome),
        (cb.is_blocked netloc url now).1 = false →
        i ≤ rc → (∀ j, j < i → (attempts j).failing = true) →
        attempts i = AttemptOutcome.cancelledSignal →
        (scrape_article_with_timeout netloc cb url depth rc t0 now attempts).data = none
        ∧ (scrape_article_with_timeout netloc cb url depth rc t0 now attempts).breaker
            = (cb.is_blocked netloc url now).2)
    ∧ (∀ (envC envN : ExecEnv) (budget bs k0 fuel k gi cc fc : Nat)
        (links : List String) (s : ExecState),
        envC.articleResult = envN.articleResult →
        envC.elapsedBefore = envN.elapsedBefore →
        envC.batchTimedOut = envN.batchTimedOut →
        envC.notDone = envN.notDone →
        envC.cancelObservedAt = some k0 → envN.cancelObservedAt = none →
        ∃ ext, (phase2Go envN budget bs fuel links k gi cc fc s).2.2.2.trace
            = ext ++ (phase2Go envC budget bs fuel links k gi cc fc s).2.2.2.trace)
    ∧ (∀ (task_id : String) (req : ScrapeRequest) (tm : Nat) (env : ExecEnv),
        (executeCore task_id req tm env).aborted = true →
        execute_multi_depth_scrape task_id req tm env
          = executeCore task_id req tm env) := by
  refine ⟨?_, ?_, ?_, ?_, ?_⟩
  · intro o tid now h
    simp [cancel_task, h]
  · intro o tid tr now h
    simp [cancel_task, h, Function.update]
  · intro netloc cb url depth rc t0 now i attempts hnb hi hfailb hak
    have hrun : scrape_article_with_timeout netloc cb url depth rc t0 now attempts
        = workerGo netloc url depth rc now attempts (rc + 1) 0 t0
            (cb.is_blocked netloc url now).2 [] := by
      unfold scrape_article_with_timeout
      simp [hnb]
    obtain ⟨pre, hpre⟩ := workerGo_reach netloc url depth rc now t0 attempts
      (cb.is_blocked netloc url now).2 i hi hfailb
    have hfuel : rc + 1 - i = (rc - i) + 1 := by omega
    rw [hfuel] at hpre
    have hstep : workerGo netloc url depth rc now attempts ((rc - i) + 1) i
        (timeoutSeq attempts t0 i) (cb.is_blocked netloc url now).2 []
        = ⟨none, (cb.is_blocked netloc url now).2,
            [WorkerEvent.attemptFetch i (timeoutSeq attempts t0 i)]⟩ := by
      simp [workerGo, hak]
    rw [hstep] at hpre
    rw [hrun, hpre]
    exact ⟨rfl, rfl⟩
  · intro envC envN budget bs k0 fuel k gi cc fc links s h1 h2 h3 h4 h5 h6
    exact (phase2Go_cancel_cutoff envC envN budget bs k0 h1 h2 h3 h4 h5 h6
      fuel links k gi cc fc s).1
  · intro task_id req tm env h
    simp [execute_multi_depth_scrape, h]

/-- Witness for C6: unknown-id cancel returns false; cancelling the
tracked completed task returns true and rewrites the registry entry; a
worker whose first attempt observes cancellation yields `None`. -/
theorem cancel_task_spec_witness :
    (cancel_task c2Orch "nope" 1).1 = false
    ∧ (cancel_task c2Orch "done" 5).1 = true
    ∧ ((cancel_task c2Orch "done" 5).2.2.tasks "done").map TaskResult.status
        = some TaskStatus.cancelled
    ∧ (scrape_article_with_timeout id CircuitBreaker.init "u" 1 3 180 9
        (fun _ => AttemptOutcome.cancelledSignal)).data = none := by
  have h := cancel_task_spec
  refine ⟨?_, ?_, ?_, ?_⟩
  · rw [h.1 c2Orch "nope" 1 (by decide)]
  · exact (h.2.1 c2Orch "done" c2Record 5 (by decide)).1
  · exact (h.2.1 c2Orch "done" c2Record 5 (by decide)).2.1
  · exact (h.2.2.1 id CircuitBreaker.init "u" 1 3 180 9 0
      (fun _ => AttemptOutcome.cancelledSignal) (by decide) (by omega)
      (fun j hj => absurd hj (Nat.not_lt_zero j)) rfl).1

/-- `update_progress` never touches `total_items`. -/
theorem update_progress_total_frame (tr : TaskResult) (c f n : Nat) :
    (tr.update_progress c f n).total_items = tr.total_items := by
  unfold TaskResult.update_progress
  by_cases h : c + f ≥ tr.total_items <;> simp [h]

/-- `update_progress` installs exactly the counters it is given. -/
theorem update_progress_counters (tr : TaskResult) (c f n : Nat) :
    (tr.update_progress c f n).completed_items = c
    ∧ (tr.update_progress c f n).failed_items = f := by
  unfold TaskResult.update_progress
  by_cases h : c + f ≥ tr.total_items <;> simp [h]

/-- Phase 3 never touches the counters, totals, results or `completedAt`. -/
theorem phase3_frame (q : Bool) (c : Except String (List String)) (tr : TaskResult) :
    (phase3 q c tr).completed_items = tr.completed_items
    ∧ (phase3 q c tr).failed_items = tr.failed_items
    ∧ (phase3 q c tr).total_items = tr.total_items := by
  unfold phase3
  by_cases h : q ∧ tr.results.length > 0
  · cases c <;> simp [h, TaskResult.add_error]
  · simp [h]

/-- `add_error` leaves counters and totals alone. -/
theorem add_error_frame (tr : TaskResult) (m : String) :
    (tr.add_error m).completed_items = tr.completed_items
    ∧ (tr.add_error m).failed_items = tr.failed_items
    ∧ (tr.add_error m).total_items = tr.total_items := by
  simp [TaskResult.add_error]

/-- `add_result` leaves counters and totals alone. -/
theorem add_result_frame (tr : TaskResult) (d : ScrapedItem) :
    (tr.add_result d).completed_items = tr.completed_items
    ∧ (tr.add_result d).failed_items = tr.failed_items
    ∧ (tr.add_result d).total_items = tr.total_items := by
  simp [TaskResult.add_result]

/-- Snapshot invariant through one batch's result processing: every
snapshot pushed satisfies `completed + failed ≤ total`, the totals field is
untouched, and the loop counters grow by exactly one per processed entry
(tracked against a reserve `R` of still-unreached links). -/
theorem processBatchResults_inv (env : ExecEnv) (gi T R : Nat) :
    ∀ (cnt j cc fc : Nat) (s : ExecState),
      s.tr.total_items = T →
      s.tr.completed_items + s.tr.failed_items ≤ T →
      (∀ x ∈ s.trace, x.completed_items + x.failed_items ≤ x.total_items) →
      cc + fc + cnt + R ≤ T →
      (processBatchResults env gi cnt j cc fc s).2.2.tr.total_items = T
      ∧ (processBatchResults env gi cnt j cc fc s).2.2.tr.completed_items
          + (processBatchResults env gi cnt j cc fc s).2.2.tr.failed_items ≤ T
      ∧ (∀ x ∈ (processBatchResults env gi cnt j cc fc s).2.2.trace,
          x.completed_items + x.failed_items ≤ x.total_items)
      ∧ (processBatchResults env gi cnt j cc fc s).1
          + (processBatchResults env gi cnt j cc fc s).2.1 + R ≤ T := by
  intro cnt
  induction cnt with
  | zero =>
    intro j cc fc s h1 h2 h3 h4
    simp only [processBatchResults]
    exact ⟨h1, h2, h3, by omega⟩
  | succ cnt ih =>
    intro j cc fc s h1 h2 h3 h4
    cases har : env.articleResult (gi + j)
    case exn msg =>
      simp only [processBatchResults, har]
      refine ih _ _ _ _ ?_ ?_ ?_ ?_
      · simp only [ExecState.snap, ExecState.tick]
        rw [update_progress_total_frame, (add_error_frame _ _).2.2]
        exact h1
      · simp only [ExecState.snap, ExecState.tick]
        rw [(update_progress_counters _ _ _ _).1, (update_progress_counters _ _ _ _).2]
        omega
      · intro x hx
        simp only [ExecState.snap, ExecState.tick, List.mem_cons] at hx
        rcases hx with rfl | rfl | hx
        · rw [(update_progress_counters _ _ _ _).1, (update_progress_counters _ _ _ _).2,
            update_progress_total_frame, (add_error_frame _ _).2.2, h1]
          omega
        · rw [(add_error_frame _ _).1, (add_error_frame _ _).2.1,
            (add_error_frame _ _).2.2, h1]
          exact h2
        · exact h3 x hx
      · omega
    case ok d =>
      simp only [processBatchResults, har]
      refine ih _ _ _ _ ?_ ?_ ?_ ?_
      · simp only [ExecState.snap, ExecState.tick]
        rw [update_progress_total_frame, (add_result_frame _ _).2.2]
        exact h1
      · simp only [ExecState.snap, ExecState.tick]
        rw [(update_progress_counters _ _ _ _).1, (update_progress_counters _ _ _ _).2]
        omega
      · intro x hx
        simp only [ExecState.snap, ExecState.tick, List.mem_cons] at hx
        rcases hx with rfl | rfl | hx
        · rw [(update_progress_counters _ _ _ _).1, (update_progress_counters _ _ _ _).2,
            update_progress_total_frame, (add_result_frame _ _).2.2, h1]
          omega
        · rw [(add_result_frame _ _).1, (add_result_frame _ _).2.1,
            (add_result_frame _ _).2.2, h1]
          exact h2
        · exact h3 x hx
      · omega
    case noneResult =>
      simp only [processBatchResults, har]
      refine ih _ _ _ _ ?_ ?_ ?_ ?_
      · simp only [ExecState.snap, ExecState.tick]
        rw [update_progress_total_frame]
        exact h1
      · simp only [ExecState.snap, ExecState.tick]
        rw [(update_progress_counters _ _ _ _).1, (update_progress_counters _ _ _ _).2]
        omega
      · intro x hx
        simp only [ExecState.snap, ExecState.tick, List.mem_cons] at hx
        rcases hx with rfl | hx
        · rw [(update_progress_counters _ _ _ _).1, (update_progress_counters _ _ _ _).2,
            update_progress_total_frame, h1]
          omega
        · exact h3 x hx
      · omega

/-- Snapshot invariant through the whole phase-2 loop: with
`cc + fc + |remaining links| ≤ T` and the record's totals pinned at `T`,
every pushed snapshot satisfies `completed + failed ≤ total`. -/
theorem phase2Go_inv (env : ExecEnv) (budget bs T : Nat) :
    ∀ (fuel : Nat) (links : List String) (k gi cc fc : Nat) (s : ExecState),
      s.tr.total_items = T →
      s.tr.completed_items + s.tr.failed_items ≤ T →
      (∀ x ∈ s.trace, x.completed_items + x.failed_items ≤ x.total_items) →
      cc + fc + links.length ≤ T →
      (phase2Go env budget bs fuel links k gi cc fc s).2.2.2.tr.total_items = T
      ∧ (phase2Go env budget bs fuel links k gi cc fc s).2.2.2.tr.completed_items
          + (phase2Go env budget bs fuel links k gi cc fc s).2.2.2.tr.failed_items ≤ T
      ∧ (∀ x ∈ (phase2Go env budget bs fuel links k gi cc fc s).2.2.2.trace,
          x.completed_items + x.failed_items ≤ x.total_items) := by
  intro fuel
  induction fuel with
  | zero =>
    intro links k gi cc fc s h1 h2 h3 _
    simpa [phase2Go] using ⟨h1, h2, h3⟩
  | succ fuel ih =>
    intro links k gi cc fc s h1 h2 h3 h4
    cases links with
    | nil => simpa [phase2Go] using ⟨h1, h2, h3⟩
    | cons l r =>
      by_cases hge : env.elapsedBefore k ≥ budget
      · simpa [phase2Go, hge] using ⟨h1, h2, h3⟩
      · by_cases h60 : budget - env.elapsedBefore k < 60
        · simp only [phase2Go, if_neg hge, if_pos h60]
          refine ih _ _ _ _ _ _ h1 h2 h3 ?_
          have h5 : ((l :: r).drop bs).length ≤ (l :: r).length := by
            rw [List.length_drop]
            omega
          omega
        · by_cases hcan : env.cancelObservedAt = some k
          · simp only [phase2Go, if_neg hge, if_neg h60, if_pos hcan]
            exact ⟨h1, h2, h3⟩
          · have hnd : ((List.range (List.take bs (l :: r)).length).filter
                (fun j => env.notDone k j)).length ≤ (List.take bs (l :: r)).length := by
              calc ((List.range (List.take bs (l :: r)).length).filter
                    (fun j => env.notDone k j)).length
                  ≤ (List.range (List.take bs (l :: r)).length).length :=
                    List.length_filter_le _ _
                _ = (List.take bs (l :: r)).length := List.length_range _
            have hsum : (List.take bs (l :: r)).length + ((l :: r).drop bs).length
                = (l :: r).length := by
              rw [← List.length_append, List.take_append_drop]
            by_cases hbt : env.batchTimedOut k
            · simp only [phase2Go, if_neg hge, if_neg h60, if_neg hcan, if_pos hbt]
              refine ⟨?_, ?_, ?_⟩
              · simp only [ExecState.snap, ExecState.tick]
                rw [update_progress_total_frame]
                exact h1
              · simp only [ExecState.snap, ExecState.tick]
                rw [(update_progress_counters _ _ _ _).1,
                  (update_progress_counters _ _ _ _).2]
                omega
              · intro x hx
                simp only [ExecState.snap, ExecState.tick, List.mem_cons] at hx
                rcases hx with rfl | hx
                · rw [(update_progress_counters _ _ _ _).1,
                    (update_progress_counters _ _ _ _).2,
                    update_progress_total_frame, h1]
                  omega
                · exact h3 x hx
            · simp only [phase2Go, if_neg hge, if_neg h60, if_neg hcan, if_neg hbt]
              have H := processBatchResults_inv env gi T (((l :: r).drop bs).length)
                ((List.take bs (l :: r)).length) 0 cc fc
                { s with dispatched := s.dispatched + (List.take bs (l :: r)).length }
                h1 h2 h3 (by omega)
              exact ih _ _ _ _ _ _ H.1 H.2.1 H.2.2.1 H.2.2.2

/-- The `except` branch only rewrites status/errors/`completedAt`: all its
snapshots keep the incoming counter bound. -/
theorem exceptPath_inv (s : ExecState) (msg : String)
    (h2 : s.tr.completed_items + s.tr.failed_items ≤ s.tr.total_items)
    (h3 : ∀ x ∈ s.trace, x.completed_items + x.failed_items ≤ x.total_items) :
    (∀ x ∈ (exceptPath s msg).trace,
        x.completed_items + x.failed_items ≤ x.total_items)
    ∧ (exceptPath s msg).final.completed_items + (exceptPath s msg).final.failed_items
        ≤ (exceptPath s msg).final.total_items := by
  constructor
  · intro x hx
    simp only [exceptPath, ExecState.snap, ExecState.tick] at hx
    rw [List.mem_reverse] at hx
    simp only [List.mem_cons] at hx
    rcases hx with rfl | rfl | rfl | hx
    · simpa [TaskResult.add_error] using h2
    · simpa [TaskResult.add_error] using h2
    · simpa using h2
    · exact h3 x hx
  · simpa [exceptPath, ExecState.snap, ExecState.tick, TaskResult.add_error] using h2

/-- The finalize step only rewrites status/errors/`completedAt`: all its
snapshots keep the incoming counter bound. -/
theorem finalize_inv (tmm budget : Nat) (env : ExecEnv) (s : ExecState)
    (h2 : s.tr.completed_items + s.tr.failed_items ≤ s.tr.total_items)
    (h3 : ∀ x ∈ s.trace, x.completed_items + x.failed_items ≤ x.total_items) :
    (∀ x ∈ (executeCore.finalize tmm budget env s).trace,
        x.completed_items + x.failed_items ≤ x.total_items)
    ∧ (executeCore.finalize tmm budget env s).final.completed_items
        + (executeCore.finalize tmm budget env s).final.failed_items
        ≤ (executeCore.finalize tmm budget env s).final.total_items := by
  constructor
  · intro x hx
    simp only [executeCore.finalize, ExecState.snap, ExecState.tick] at hx
    rw [List.mem_reverse] at hx
    simp only [List.mem_cons] at hx
    rcases hx with rfl | rfl | hx
    · split_ifs <;> simpa [TaskResult.add_error] using h2
    · simpa using h2
    · exact h3 x hx
  · simp only [executeCore.finalize, ExecState.snap, ExecState.tick]
    split_ifs <;> simpa [TaskResult.add_error] using h2

/-- Invariant shape of the cancellation-abort exit of phase 2 (trace is
returned reversed, the live record is the final value). -/
theorem phase2_abort_inv (env : ExecEnv) (budget bs T fuel : Nat)
    (links : List String) (k gi cc fc : Nat) (s : ExecState)
    (h1 : s.tr.total_items = T)
    (h2 : s.tr.completed_items + s.tr.failed_items ≤ T)
    (h3 : ∀ x ∈ s.trace, x.completed_items + x.failed_items ≤ x.total_items)
    (h4 : cc + fc + links.length ≤ T) :
    (∀ x ∈ (phase2Go env budget bs fuel links k gi cc fc s).2.2.2.trace.reverse,
        x.completed_items + x.failed_items ≤ x.total_items)
    ∧ (phase2Go env budget bs fuel links k gi cc fc s).2.2.2.tr.completed_items
        + (phase2Go env budget bs fuel links k gi cc fc s).2.2.2.tr.failed_items
        ≤ (phase2Go env budget bs fuel links k gi cc fc s).2.2.2.tr.total_items := by
  have H := phase2Go_inv env budget bs T fuel links k gi cc fc s h1 h2 h3 h4
  constructor
  · intro x hx
    rw [List.mem_reverse] at hx
    exact H.2.2 x hx
  · rw [H.1]
    exact H.2.1

/-- Invariant through phase 2 followed by the finalize step. -/
theorem finalize_phase2_inv (env : ExecEnv) (budget bs tmm T fuel : Nat)
    (links : List String) (k gi cc fc : Nat) (s : ExecState)
    (h1 : s.tr.total_items = T)
    (h2 : s.tr.completed_items + s.tr.failed_items ≤ T)
    (h3 : ∀ x ∈ s.trace, x.completed_items + x.failed_items ≤ x.total_items)
    (h4 : cc + fc + links.length ≤ T) :
    (∀ x ∈ (executeCore.finalize tmm budget env
        (phase2Go env budget bs fuel links k gi cc fc s).2.2.2).trace,
        x.completed_items + x.failed_items ≤ x.total_items)
    ∧ (executeCore.finalize tmm budget env
        (phase2Go env budget bs fuel links k gi cc fc s).2.2.2).final.completed_items
      + (executeCore.finalize tmm budget env
          (phase2Go env budget bs fuel links k gi cc fc s).2.2.2).final.failed_items
      ≤ (executeCore.finalize tmm budget env
          (phase2Go env budget bs fuel links k gi cc fc s).2.2.2).final.total_items := by
  have H := phase2Go_inv env budget bs T fuel links k gi cc fc s h1 h2 h3 h4
  exact finalize_inv tmm budget env _ (by rw [H.1]; exact H.2.1) H.2.2

/-- Snapshot invariant for the whole core routine (all phases through
finalize): both the full trace and the final record respect
`completed + failed ≤ total`. -/
theorem executeCore_inv (task_id : String) (req : ScrapeRequest) (tm : Nat)
    (env : ExecEnv) :
    (∀ x ∈ (executeCore task_id req tm env).trace,
        x.completed_items + x.failed_items ≤ x.total_items)
    ∧ (executeCore task_id req tm env).final.completed_items
        + (executeCore task_id req tm env).final.failed_items
        ≤ (executeCore task_id req tm env).final.total_items := by
  cases hd : env.disc
  case discTimeout =>
    simp only [executeCore, hd]
    refine exceptPath_inv _ _ (by simp [ExecState.snap, TaskResult.init]) ?_
    intro x hx
    simp only [ExecState.snap, List.mem_cons] at hx
    rcases hx with rfl | hx
    · simp [TaskResult.init]
    · simp at hx
      subst hx
      simp [TaskResult.init]
  case discFail err =>
    simp only [executeCore, hd]
    refine exceptPath_inv _ _ (by simp [ExecState.snap, TaskResult.init]) ?_
    intro x hx
    simp only [ExecState.snap, List.mem_cons] at hx
    rcases hx with rfl | hx
    · simp [TaskResult.init]
    · simp at hx
      subst hx
      simp [TaskResult.init]
  case discOk text links =>
    simp only [executeCore, hd]
    by_cases hguard : links ≠ [] ∧ req.max_depth > 1
    · by_cases hbs : min env.max_concurrent_articles 10 = 0
      · simp only [if_pos hguard, if_pos hbs]
        refine exceptPath_inv _ _ ?_ ?_
        · simp only [ExecState.snap, ExecState.tick]
          rw [(update_progress_counters _ _ _ _).1, (update_progress_counters _ _ _ _).2,
            update_progress_total_frame, (add_result_frame _ _).2.2]
          simp
        · intro x hx
          simp only [ExecState.snap, ExecState.tick, List.mem_cons] at hx
          rcases hx with rfl | rfl | rfl | rfl | hx
          · rw [(update_progress_counters _ _ _ _).1, (update_progress_counters _ _ _ _).2,
              update_progress_total_frame, (add_result_frame _ _).2.2]
            simp
          · rw [(add_result_frame _ _).1, (add_result_frame _ _).2.1,
              (add_result_frame _ _).2.2]
            simp [TaskResult.init]
          · simp [TaskResult.init]
          · simp [TaskResult.init]
          · simp at hx
            subst hx
            simp [TaskResult.init]
      · simp only [if_pos hguard, if_neg hbs]
        split
        · refine phase2_abort_inv env (tm * 60) (min env.max_concurrent_articles 10)
            (links.length + 1) links.length links 0 0 1 0 _ ?_ ?_ ?_ ?_
          · simp only [ExecState.snap, ExecState.tick]
            rw [update_progress_total_frame, (add_result_frame _ _).2.2]
          · simp only [ExecState.snap, ExecState.tick]
            rw [(update_progress_counters _ _ _ _).1, (update_progress_counters _ _ _ _).2]
            omega
          · intro x hx
            simp only [ExecState.snap, ExecState.tick, List.mem_cons] at hx
            rcases hx with rfl | rfl | rfl | rfl | hx
            · rw [(update_progress_counters _ _ _ _).1,
                (update_progress_counters _ _ _ _).2,
                update_progress_total_frame, (add_result_frame _ _).2.2]
              simp
            · rw [(add_result_frame _ _).1, (add_result_frame _ _).2.1,
                (add_result_frame _ _).2.2]
              simp [TaskResult.init]
            · simp [TaskResult.init]
            · simp [TaskResult.init]
            · simp at hx
              subst hx
              simp [TaskResult.init]
          · omega
        · refine finalize_phase2_inv env (tm * 60) (min env.max_concurrent_articles 10)
            tm (links.length + 1) links.length links 0 0 1 0 _ ?_ ?_ ?_ ?_
          · simp only [ExecState.snap, ExecState.tick]
            rw [update_progress_total_frame, (add_result_frame _ _).2.2]
          · simp only [ExecState.snap, ExecState.tick]
            rw [(update_progress_counters _ _ _ _).1, (update_progress_counters _ _ _ _).2]
            omega
          · intro x hx
            simp only [ExecState.snap, ExecState.tick, List.mem_cons] at hx
            rcases hx with rfl | rfl | rfl | rfl | hx
            · rw [(update_progress_counters _ _ _ _).1,
                (update_progress_counters _ _ _ _).2,
                update_progress_total_frame, (add_result_frame _ _).2.2]
              simp
            · rw [(add_result_frame _ _).1, (add_result_frame _ _).2.1,
                (add_result_frame _ _).2.2]
              simp [TaskResult.init]
            · simp [TaskResult.init]
            · simp [TaskResult.init]
            · simp at hx
              subst hx
              simp [TaskResult.init]
          · omega
    · simp only [if_neg hguard]
      refine finalize_inv tm (tm * 60) env _ ?_ ?_
      · simp only [ExecState.snap, ExecState.tick]
        rw [(update_progress_counters _ _ _ _).1, (update_progress_counters _ _ _ _).2,
          update_progress_total_frame, (add_result_frame _ _).2.2]
        simp
      · intro x hx
        simp only [ExecState.snap, ExecState.tick, List.mem_cons] at hx
        rcases hx with rfl | rfl | rfl | rfl | hx
        · rw [(update_progress_counters _ _ _ _).1, (update_progress_counters _ _ _ _).2,
            update_progress_total_frame, (add_result_frame _ _).2.2]
          simp
        · rw [(add_result_frame _ _).1, (add_result_frame _ _).2.1,
            (add_result_frame _ _).2.2]
          simp [TaskResult.init]
        · simp [TaskResult.init]
        · simp [TaskResult.init]
        · simp at hx
          subst hx
          simp [TaskResult.init]

/-- C7: at every observed snapshot of every task the counters are
non-negative (they live in ℕ) and `completedItems + failedItems ≤
totalItems` holds — trivially with `totalItems = 0` before discovery
finishes, and maintained by every later mutation. -/
theorem snapshot_counter_invariant (task_id : String) (req : ScrapeRequest)
    (tm : Nat) (env : ExecEnv) :
    ∀ x ∈ (execute_multi_depth_scrape task_id req tm env).trace,
      x.completed_items + x.failed_items ≤ x.total_items := by
  have hcore := executeCore_inv task_id req tm env
  simp only [execute_multi_depth_scrape]
  split
  · exact hcore.1
  · intro x hx
    rcases List.mem_append.mp hx with hx | hx
    · exact hcore.1 x hx
    · rw [List.mem_singleton] at hx
      subst hx
      have hf := phase3_frame req.questionTruthy env.classification
        (executeCore task_id req tm env).final
      rw [hf.1, hf.2.1, hf.2.2]
      exact hcore.2

/-- Witness for C7: the submission-time snapshot of a failing-discovery
run is observed in the trace and satisfies the bound (0 + 0 ≤ 0). -/
theorem snapshot_counter_invariant_witness :
    TaskResult.init "t" 0 ∈ (execute_multi_depth_scrape "t" c1Request 30
      { c1Env with disc := DiscoveryOutcome.discFail "net down" }).trace
    ∧ (TaskResult.init "t" 0).completed_items + (TaskResult.init "t" 0).failed_items
        ≤ (TaskResult.init "t" 0).total_items := by
  refine ⟨by decide, ?_⟩
  exact snapshot_counter_invariant "t" c1Request 30
    { c1Env with disc := DiscoveryOutcome.discFail "net down" }
    (TaskResult.init "t" 0) (by decide)

end DOTbot
